import Mathlib

/-!
Verification of the quantization core of the inky-frame repository
(src/main.js): nearest-palette-color matching (`findClosestColor`,
`colorDistance`), direct quantization (`quantizeToEinkPalette`) and
Floyd-Steinberg error-diffusion dithering (`applyFloydSteinbergDithering`).

Modelling notes, from the JavaScript source:

* A raster buffer is a `List Nat` of byte values; the engine's working
  array is a `Uint8ClampedArray`.  Reading index `i` of such an array
  yields `undefined` out of bounds, modelled by `l[i]?  : Option Nat`;
  writing out of bounds is silently ignored, which matches `List.set`
  (a no-op past the end).  Storing a number performs the ECMAScript
  `ToUint8Clamp` conversion: clamp to `[0, 255]` then round half to even.

* All numbers that actually arise are rationals with denominator dividing
  16 and magnitude at most a few hundred, which IEEE doubles represent
  exactly, so JavaScript arithmetic is modelled exactly by `ℤ` and `ℚ`.

* `colorDistance` in the source is `Math.sqrt` of the sum of squared
  channel differences.  `Math.sqrt` is strictly monotone on the exact
  nonnegative values involved, so the comparisons the program makes are
  exactly the comparisons of the squared distances; the embedding keeps
  squared distances (`colorDistanceSq`) as exact integers.

* `minDistance` starts at `Infinity`, modelled by `Option ℤ` with `none`
  for `Infinity`: every finite distance compares less than it.

* With an empty palette, `findClosestColor` returns `palette[0]`, which
  is `undefined` in JavaScript; the subsequent `newPixel[0]` property
  access in either engine then throws a `TypeError`.  Thrown exceptions
  are modelled by the engines returning `none`.

* Both engines start with `const data = new Uint8ClampedArray(imageData)`,
  a fresh copy of the caller's buffer, and every write targets `data`.
  To make this frame property statable, the state of a call is a
  `JSHeap` holding the caller's buffer (`imageData`) and the working
  array (`data`); every store in the source is a `writeData` on the
  working array, and the engines return the final heap, projected to
  `.data` by the public entry points.
-/

namespace InkyFrame

/-- An RGB triple as the source handles it: three JavaScript numbers.
Channel values are ordinary integers (not necessarily in `[0,255]`). -/
structure RGB where
  r : ℤ
  g : ℤ
  b : ℤ
deriving DecidableEq

/-- Squared Euclidean RGB distance.  The source's `colorDistance` is
`Math.sqrt` of this value; since square roots are strictly monotone, every
comparison the source performs on distances coincides with the comparison
of these exact squared distances. -/
def colorDistanceSq (rgb1 rgb2 : RGB) : ℤ :=
  (rgb1.r - rgb2.r) ^ 2 + (rgb1.g - rgb2.g) ^ 2 + (rgb1.b - rgb2.b) ^ 2

/-- One iteration of the `for (const paletteColor of palette)` loop in
`findClosestColor`.  The accumulator is `(closestColor, minDistance)`;
`minDistance = none` models the initial `Infinity`, and the update happens
exactly when `distance < minDistance` holds strictly. -/
def fccStep (rgb : RGB) (acc : RGB × Option ℤ) (c : RGB) : RGB × Option ℤ :=
  match acc.2 with
  | none => (c, some (colorDistanceSq rgb c))
  | some m => if colorDistanceSq rgb c < m then (c, some (colorDistanceSq rgb c)) else acc

/-- `findClosestColor` from src/main.js: `closestColor` starts as
`palette[0]` (which is `undefined`, i.e. `none`, for an empty palette),
`minDistance` starts as `Infinity`, and the loop scans the whole palette
in order, updating only on strictly smaller distance. -/
def findClosestColor (rgb : RGB) (palette : List RGB) : Option RGB :=
  match palette with
  | [] => none
  | p0 :: _ => some (palette.foldl (fccStep rgb) (p0, none)).1

/-- `findClosestColor` as called on channel values read from a
`Uint8ClampedArray`, where an out-of-bounds read yields `undefined`
(`none`).  Any `undefined` channel makes every computed distance `NaN`;
`NaN < minDistance` is false for every entry, so the loop never updates
and the function returns the initial `palette[0]` (`List.head?`). -/
def findClosestColorU (r g b : Option Nat) (palette : List RGB) : Option RGB :=
  match r, g, b with
  | some r, some g, some b => findClosestColor ⟨(r : ℤ), (g : ℤ), (b : ℤ)⟩ palette
  | _, _, _ => palette.head?

/-- The memory state of one engine call: the caller-supplied buffer
`imageData` and the engine's working `Uint8ClampedArray` `data` (created
as a copy of `imageData` on entry). -/
structure JSHeap where
  imageData : List Nat
  data : List Nat
deriving DecidableEq

/-- A store `data[i] = v` in the source: every assignment in both engines
targets the working array, never the caller's buffer.  Out-of-bounds
stores are ignored, as `List.set` is. -/
def writeData (s : JSHeap) (i v : Nat) : JSHeap :=
  { s with data := s.data.set i v }

/-- ECMAScript `ToUint8Clamp` applied to an integer (the palette channel
values written by `data[idx] = newPixel[k]`): clamp to `[0, 255]`. -/
def clampByte (v : ℤ) : Nat :=
  (min 255 (max 0 v)).toNat

/-- Round half to even, as ECMAScript `ToUint8Clamp` rounds. -/
def roundHalfEven (q : ℚ) : ℤ :=
  if q - q.floor < 1 / 2 then q.floor
  else if 1 / 2 < q - q.floor then q.floor + 1
  else if q.floor % 2 = 0 then q.floor else q.floor + 1

/-- The store performed by `data[n] = Math.max(0, Math.min(255, x))` for a
finite rational `x`: the explicit clamp from the source followed by the
`ToUint8Clamp` rounding of the assignment. -/
def clampRound (q : ℚ) : Nat :=
  (roundHalfEven (max 0 (min 255 q))).toNat

/-- One channel of the body of `distributeError`:
`data[n] = Math.max(0, Math.min(255, data[n] + error * factor))`.
If the read yields `undefined` or the error is `NaN` (an `undefined`
source channel), the computed value is `NaN`, which `ToUint8Clamp`
converts to `0`. -/
def distChannel (s : JSHeap) (n : Nat) (err : Option ℤ) (factor : ℚ) : JSHeap :=
  match s.data[n]?, err with
  | some v, some e => writeData s n (clampRound ((v : ℚ) + (e : ℚ) * factor))
  | _, _ => writeData s n 0

/-- `distributeError(dx, dy, factor)` from `applyFloydSteinbergDithering`:
skip entirely unless `x+dx` and `y+dy` lie inside the raster, otherwise
update the three channels of the neighbor at index
`((y+dy)*width + (x+dx))*3`. -/
def distributeError (width height x y : Nat) (eR eG eB : Option ℤ)
    (dx dy : ℤ) (factor : ℚ) (s : JSHeap) : JSHeap :=
  if 0 ≤ (x : ℤ) + dx ∧ (x : ℤ) + dx < (width : ℤ) ∧
     0 ≤ (y : ℤ) + dy ∧ (y : ℤ) + dy < (height : ℤ) then
    let nIdx := ((((y : ℤ) + dy) * (width : ℤ) + ((x : ℤ) + dx)) * 3).toNat
    distChannel (distChannel (distChannel s nIdx eR factor) (nIdx + 1) eG factor)
      (nIdx + 2) eB factor
  else s

/-- The body of the double loop of `applyFloydSteinbergDithering` for one
pixel `(x, y)`: read the current working sample, match it against the
palette (`none` models the `TypeError` thrown on an empty palette), write
the palette color, and distribute the signed error to the four neighbors
with weights 7/16, 3/16, 5/16, 1/16, in the source's order. -/
def ditherPixel (width height : Nat) (palette : List RGB) (x y : Nat)
    (s : JSHeap) : Option JSHeap :=
  let idx := (y * width + x) * 3
  let oldR := s.data[idx]?
  let oldG := s.data[idx + 1]?
  let oldB := s.data[idx + 2]?
  match findClosestColorU oldR oldG oldB palette with
  | none => none
  | some np =>
    let s1 := writeData (writeData (writeData s idx (clampByte np.r))
      (idx + 1) (clampByte np.g)) (idx + 2) (clampByte np.b)
    let eR := oldR.map (fun v : Nat => (v : ℤ) - np.r)
    let eG := oldG.map (fun v : Nat => (v : ℤ) - np.g)
    let eB := oldB.map (fun v : Nat => (v : ℤ) - np.b)
    some (distributeError width height x y eR eG eB 1 1 (1 / 16)
      (distributeError width height x y eR eG eB 0 1 (5 / 16)
        (distributeError width height x y eR eG eB (-1) 1 (3 / 16)
          (distributeError width height x y eR eG eB 1 0 (7 / 16) s1))))

/-- `applyFloydSteinbergDithering` at the heap level: copy the input into
the working array, then run the strict row-major double loop
`for y in [0, height) { for x in [0, width) { ... } }`. -/
def ditherRun (imageData : List Nat) (width height : Nat)
    (palette : List RGB) : Option JSHeap :=
  (List.range height).foldlM
    (fun s y => (List.range width).foldlM
      (fun s x => ditherPixel width height palette x y s) s)
    ⟨imageData, imageData⟩

/-- Public `applyFloydSteinbergDithering`: returns `Buffer.from(data)`,
the working array of the final heap; `none` models a thrown exception. -/
def applyFloydSteinbergDithering (imageData : List Nat) (width height : Nat)
    (palette : List RGB) : Option (List Nat) :=
  (ditherRun imageData width height palette).map (fun s => s.data)

/-- The loop `for (let i = 0; i < data.length; i += 3)` of
`quantizeToEinkPalette`.  `fuel` only bounds the recursion and is chosen
large enough by the entry point (the index advances by 3 every iteration,
so `data.length` iterations are more than enough); the loop guard
`i < data.length` is checked exactly as in the source. -/
def quantizeLoop (palette : List RGB) : Nat → Nat → JSHeap → Option JSHeap
  | 0, _, s => some s
  | fuel + 1, i, s =>
    if i < s.data.length then
      match findClosestColorU s.data[i]? s.data[i + 1]? s.data[i + 2]? palette with
      | none => none
      | some np =>
        quantizeLoop palette fuel (i + 3)
          (writeData (writeData (writeData s i (clampByte np.r))
            (i + 1) (clampByte np.g)) (i + 2) (clampByte np.b))
    else some s

/-- `quantizeToEinkPalette` at the heap level: copy the input into the
working array and run the loop.  The `width` and `height` parameters are
accepted, as in the source, but never read. -/
def quantizeRun (imageData : List Nat) (width height : Nat)
    (palette : List RGB) : Option JSHeap :=
  quantizeLoop palette imageData.length 0 ⟨imageData, imageData⟩

/-- Public `quantizeToEinkPalette`: returns `Buffer.from(data)`. -/
def quantizeToEinkPalette (imageData : List Nat) (width height : Nat)
    (palette : List RGB) : Option (List Nat) :=
  (quantizeRun imageData width height palette).map (fun s => s.data)

/-- The loop of `findClosestColor` once `minDistance` has become finite:
after the first iteration it always holds the distance of the current
`closestColor`, so the `Option ℤ` accumulator can be replaced by `ℤ`. -/
def fccStep2 (rgb : RGB) (acc : RGB × ℤ) (c : RGB) : RGB × ℤ :=
  if colorDistanceSq rgb c < acc.2 then (c, colorDistanceSq rgb c) else acc

/-- A palette is well formed when every channel of every entry lies in
`[0, 255]`, the invariant the spec's Palette data model imposes. -/
def paletteWF (P : List RGB) : Bool :=
  P.all fun c =>
    decide (0 ≤ c.r) && decide (c.r ≤ 255) && decide (0 ≤ c.g) &&
    decide (c.g ≤ 255) && decide (0 ≤ c.b) && decide (c.b ≤ 255)

/-- Pixel `k` of the byte buffer `data` is exactly the palette entry `c`. -/
def pixelEq (data : List Nat) (k : Nat) (c : RGB) : Bool :=
  data[3 * k]? == some c.r.toNat && data[3 * k + 1]? == some c.g.toNat &&
    data[3 * k + 2]? == some c.b.toNat

/-- Pixel `k` of the byte buffer `data` is an exact member of palette `P`. -/
def groupIn (data : List Nat) (k : Nat) (P : List RGB) : Bool :=
  P.any fun c => pixelEq data k c

end InkyFrame

namespace InkyFrame

lemma fcc_foldl_lift (rgb : RGB) (l : List RGB) : ∀ (b : RGB) (m : ℤ),
    l.foldl (fccStep rgb) (b, some m) =
      ((l.foldl (fccStep2 rgb) (b, m)).1, some (l.foldl (fccStep2 rgb) (b, m)).2) := by
  induction l with
  | nil => intro b m; rfl
  | cons c t ih =>
    intro b m
    by_cases h : colorDistanceSq rgb c < m
    · simp [List.foldl_cons, fccStep, fccStep2, h, ih]
    · simp [List.foldl_cons, fccStep, fccStep2, h, ih]

lemma findClosestColor_cons (rgb p0 : RGB) (ps : List RGB) :
    findClosestColor rgb (p0 :: ps) =
      some ((ps.foldl (fccStep2 rgb) (p0, colorDistanceSq rgb p0)).1) := by
  have h0 : fccStep rgb (p0, none) p0 = (p0, some (colorDistanceSq rgb p0)) := rfl
  simp only [findClosestColor, List.foldl_cons, h0, fcc_foldl_lift]

lemma fold_argmin (rgb : RGB) (ps : List RGB) : ∀ (b : RGB),
    colorDistanceSq rgb (ps.foldl (fccStep2 rgb) (b, colorDistanceSq rgb b)).1 ≤
      colorDistanceSq rgb b ∧
    (∀ p ∈ ps, colorDistanceSq rgb (ps.foldl (fccStep2 rgb) (b, colorDistanceSq rgb b)).1 ≤
      colorDistanceSq rgb p) ∧
    ((ps.foldl (fccStep2 rgb) (b, colorDistanceSq rgb b)).1 = b ∨
      ∃ i : Nat, ps[i]? = some (ps.foldl (fccStep2 rgb) (b, colorDistanceSq rgb b)).1 ∧
        colorDistanceSq rgb (ps.foldl (fccStep2 rgb) (b, colorDistanceSq rgb b)).1 <
          colorDistanceSq rgb b ∧
        ∀ j, j < i → ∀ a, ps[j]? = some a →
          colorDistanceSq rgb (ps.foldl (fccStep2 rgb) (b, colorDistanceSq rgb b)).1 <
            colorDistanceSq rgb a) := by
  induction ps with
  | nil =>
    intro b
    exact ⟨le_refl _, by intro p hp; simp at hp, Or.inl rfl⟩
  | cons p t ih =>
    intro b
    by_cases h : colorDistanceSq rgb p < colorDistanceSq rgb b
    · have e : fccStep2 rgb (b, colorDistanceSq rgb b) p = (p, colorDistanceSq rgb p) := by
        simp [fccStep2, h]
      rw [List.foldl_cons, e]
      obtain ⟨ih1, ih2, ih3⟩ := ih p
      refine ⟨le_of_lt (lt_of_le_of_lt ih1 h), ?_, ?_⟩
      · intro q hq
        rcases List.mem_cons.1 hq with rfl | hq
        · exact ih1
        · exact ih2 q hq
      · rcases ih3 with hcp | ⟨i, hi, hlt, hstrict⟩
        · refine Or.inr ⟨0, ?_, ?_, ?_⟩
          · rw [List.getElem?_cons_zero, hcp]
          · rw [hcp]; exact h
          · intro j hj; omega
        · refine Or.inr ⟨i + 1, ?_, lt_trans hlt h, ?_⟩
          · rw [List.getElem?_cons_succ]; exact hi
          · intro j hj a ha
            cases j with
            | zero =>
              rw [List.getElem?_cons_zero] at ha
              cases ha; exact hlt
            | succ j' =>
              rw [List.getElem?_cons_succ] at ha
              exact hstrict j' (by omega) a ha
    · have hbp : colorDistanceSq rgb b ≤ colorDistanceSq rgb p := not_lt.1 h
      have e : fccStep2 rgb (b, colorDistanceSq rgb b) p = (b, colorDistanceSq rgb b) := by
        simp [fccStep2, h]
      rw [List.foldl_cons, e]
      obtain ⟨ih1, ih2, ih3⟩ := ih b
      refine ⟨ih1, ?_, ?_⟩
      · intro q hq
        rcases List.mem_cons.1 hq with rfl | hq
        · exact le_trans ih1 hbp
        · exact ih2 q hq
      · rcases ih3 with hcb | ⟨i, hi, hlt, hstrict⟩
        · exact Or.inl hcb
        · refine Or.inr ⟨i + 1, ?_, hlt, ?_⟩
          · rw [List.getElem?_cons_succ]; exact hi
          · intro j hj a ha
            cases j with
            | zero =>
              rw [List.getElem?_cons_zero] at ha
              cases ha; exact lt_of_lt_of_le hlt hbp
            | succ j' =>
              rw [List.getElem?_cons_succ] at ha
              exact hstrict j' (by omega) a ha

lemma find?_eq_some_of_index {α : Type} (p : α → Bool) (l : List α) :
    ∀ (i : Nat) (c : α), l[i]? = some c → p c = true →
      (∀ j, j < i → ∀ a, l[j]? = some a → p a = false) →
      l.find? p = some c := by
  induction l with
  | nil => intro i c h; simp at h
  | cons x t ih =>
    intro i c hg hp hbef
    cases i with
    | zero =>
      rw [List.getElem?_cons_zero] at hg
      cases hg
      exact List.find?_cons_of_pos _ hp
    | succ i' =>
      have hx : p x = false := hbef 0 (Nat.succ_pos _) x List.getElem?_cons_zero
      rw [List.find?_cons_of_neg _ (by simp [hx])]
      rw [List.getElem?_cons_succ] at hg
      exact ih i' c hg hp (fun j hj a ha => hbef (j + 1) (by omega) a (by simpa using ha))

lemma colorDistanceSq_nonneg (a b : RGB) : 0 ≤ colorDistanceSq a b := by
  unfold colorDistanceSq
  positivity

lemma colorDistanceSq_eq_zero (a b : RGB) (h : colorDistanceSq a b = 0) : b = a := by
  obtain ⟨ar, ag, ab⟩ := a
  obtain ⟨br, bg, bb⟩ := b
  unfold colorDistanceSq at h
  simp only at h
  have h1 : (ar - br) ^ 2 = 0 := by
    nlinarith [sq_nonneg (ar - br), sq_nonneg (ag - bg), sq_nonneg (ab - bb)]
  have h2 : (ag - bg) ^ 2 = 0 := by
    nlinarith [sq_nonneg (ar - br), sq_nonneg (ag - bg), sq_nonneg (ab - bb)]
  have h3 : (ab - bb) ^ 2 = 0 := by
    nlinarith [sq_nonneg (ar - br), sq_nonneg (ag - bg), sq_nonneg (ab - bb)]
  have e1 : ar - br = 0 := sq_eq_zero_iff.1 h1
  have e2 : ag - bg = 0 := sq_eq_zero_iff.1 h2
  have e3 : ab - bb = 0 := sq_eq_zero_iff.1 h3
  simp only [RGB.mk.injEq]
  omega

lemma findClosestColor_eq_find? (rgb : RGB) (P : List RGB) :
    findClosestColor rgb P =
      P.find? (fun p => P.all fun q =>
        decide (colorDistanceSq rgb p ≤ colorDistanceSq rgb q)) := by
  cases P with
  | nil => rfl
  | cons p0 ps =>
    rw [findClosestColor_cons]
    obtain ⟨h1, h2, h3⟩ := fold_argmin rgb ps p0
    have hmin : ∀ q ∈ p0 :: ps,
        colorDistanceSq rgb (ps.foldl (fccStep2 rgb) (p0, colorDistanceSq rgb p0)).1 ≤
          colorDistanceSq rgb q := by
      intro q hq
      rcases List.mem_cons.1 hq with rfl | hq
      · exact h1
      · exact h2 q hq
    have hpred : (fun p => (p0 :: ps).all fun q =>
        decide (colorDistanceSq rgb p ≤ colorDistanceSq rgb q))
          (ps.foldl (fccStep2 rgb) (p0, colorDistanceSq rgb p0)).1 = true := by
      simp only [List.all_eq_true, decide_eq_true_eq]
      exact hmin
    rcases h3 with hcb | ⟨i, hi, hlt, hstrict⟩
    · symm
      apply find?_eq_some_of_index _ _ 0
      · rw [List.getElem?_cons_zero, hcb]
      · exact hpred
      · intro j hj; omega
    · have hmem : (ps.foldl (fccStep2 rgb) (p0, colorDistanceSq rgb p0)).1 ∈ p0 :: ps :=
        List.mem_cons_of_mem p0 (List.getElem?_mem hi)
    -- the entries strictly before the winner fail the predicate
      symm
      apply find?_eq_some_of_index _ _ (i + 1)
      · rw [List.getElem?_cons_succ]; exact hi
      · exact hpred
      · intro j hj a ha
        have hac : colorDistanceSq rgb
            (ps.foldl (fccStep2 rgb) (p0, colorDistanceSq rgb p0)).1 < colorDistanceSq rgb a := by
          cases j with
          | zero =>
            rw [List.getElem?_cons_zero] at ha
            cases ha; exact hlt
          | succ j' =>
            rw [List.getElem?_cons_succ] at ha
            exact hstrict j' (by omega) a ha
        rw [Bool.eq_false_iff]
        intro hall
        have := (List.all_eq_true.1 hall) _ hmem
        rw [decide_eq_true_eq] at this
        omega

lemma findClosestColor_mem (rgb c : RGB) (P : List RGB)
    (h : findClosestColor rgb P = some c) : c ∈ P := by
  rw [findClosestColor_eq_find?] at h
  exact List.mem_of_find?_eq_some h

lemma findClosestColor_min (rgb c : RGB) (P : List RGB)
    (h : findClosestColor rgb P = some c) :
    ∀ q ∈ P, colorDistanceSq rgb c ≤ colorDistanceSq rgb q := by
  rw [findClosestColor_eq_find?] at h
  have := List.find?_some h
  simp only [List.all_eq_true, decide_eq_true_eq] at this
  exact this

lemma findClosestColor_isSome (rgb p0 : RGB) (ps : List RGB) :
    (findClosestColor rgb (p0 :: ps)).isSome = true := by
  rw [findClosestColor_cons]
  rfl

lemma findClosestColor_self (c : RGB) (P : List RGB) (hc : c ∈ P) :
    findClosestColor c P = some c := by
  rw [findClosestColor_eq_find?]
  have hsome : (P.find? (fun p => P.all fun q =>
      decide (colorDistanceSq c p ≤ colorDistanceSq c q))).isSome = true := by
    rw [List.find?_isSome]
    refine ⟨c, hc, ?_⟩
    simp only [List.all_eq_true, decide_eq_true_eq]
    intro q _
    have h0 : colorDistanceSq c c = 0 := by
      unfold colorDistanceSq; ring
    rw [h0]
    exact colorDistanceSq_nonneg c q
  obtain ⟨r, hr⟩ := Option.isSome_iff_exists.1 hsome
  have hpr := List.find?_some hr
  simp only [List.all_eq_true, decide_eq_true_eq] at hpr
  have := hpr c hc
  have h0 : colorDistanceSq c c = 0 := by
    unfold colorDistanceSq; ring
  rw [h0] at this
  have hr0 : colorDistanceSq c r = 0 :=
    le_antisymm this (colorDistanceSq_nonneg c r)
  have := colorDistanceSq_eq_zero c r hr0
  rw [hr, this]

end InkyFrame

namespace InkyFrame

/-- C2: for every color sample (channels are ordinary integers, not
necessarily in `[0,255]`) and every palette, `findClosestColor` returns a
member of the palette whose (squared, equivalently Euclidean) distance to
the sample is at most that of every other member, and it returns the
earliest such member in palette order: the result is exactly what
`List.find?` yields for the predicate "at least as close as every entry",
so a later entry with an equal distance never replaces an earlier
winner. -/
theorem C2_findClosestColor_nearest (rgb : RGB) (P : List RGB) (q : RGB)
    (hq : q ∈ P) (c : RGB) (hc : findClosestColor rgb P = some c) :
    c ∈ P ∧ colorDistanceSq rgb c ≤ colorDistanceSq rgb q ∧
      P.find? (fun p => P.all fun p2 =>
        decide (colorDistanceSq rgb p ≤ colorDistanceSq rgb p2)) = some c :=
  ⟨findClosestColor_mem rgb c P hc, findClosestColor_min rgb c P hc q hq, by
    rw [← findClosestColor_eq_find?]; exact hc⟩

/-- Witness for C2 at a concrete input: sample (10,10,10) against the
black/white palette selects black. -/
theorem C2_findClosestColor_nearest_witness :
    (⟨0, 0, 0⟩ : RGB) ∈ [(⟨0, 0, 0⟩ : RGB), ⟨255, 255, 255⟩] ∧
    colorDistanceSq ⟨10, 10, 10⟩ ⟨0, 0, 0⟩ ≤
      colorDistanceSq ⟨10, 10, 10⟩ ⟨255, 255, 255⟩ ∧
    [(⟨0, 0, 0⟩ : RGB), ⟨255, 255, 255⟩].find?
      (fun p => [(⟨0, 0, 0⟩ : RGB), ⟨255, 255, 255⟩].all fun p2 =>
        decide (colorDistanceSq ⟨10, 10, 10⟩ p ≤ colorDistanceSq ⟨10, 10, 10⟩ p2)) =
      some ⟨0, 0, 0⟩ :=
  C2_findClosestColor_nearest ⟨10, 10, 10⟩ _ ⟨255, 255, 255⟩ (by decide)
    ⟨0, 0, 0⟩ (by decide)

/-- C8: with the palette [black, white], the direct strategy maps the 2x1
raster [(10,10,10), (250,250,250)] to [(0,0,0), (255,255,255)]. -/
theorem C8_concrete_direct :
    quantizeToEinkPalette [10, 10, 10, 250, 250, 250] 2 1
      [⟨0, 0, 0⟩, ⟨255, 255, 255⟩] = some [0, 0, 0, 255, 255, 255] := by
  decide

/-- C10: `quantizeToEinkPalette` never reads its `width` and `height`
arguments — it quantizes every aligned 3-byte group of the whole buffer —
so its result is independent of the stated dimensions. -/
theorem C10_dimensions_ignored (data : List Nat) (P : List RGB)
    (w1 h1 w2 h2 : Nat) :
    quantizeToEinkPalette data w1 h1 P = quantizeToEinkPalette data w2 h2 P :=
  rfl

end InkyFrame

namespace InkyFrame

lemma paletteWF_mem (P : List RGB) (c : RGB) (hWF : paletteWF P = true)
    (hc : c ∈ P) : 0 ≤ c.r ∧ c.r ≤ 255 ∧ 0 ≤ c.g ∧ c.g ≤ 255 ∧ 0 ≤ c.b ∧ c.b ≤ 255 := by
  unfold paletteWF at hWF
  have := List.all_eq_true.1 hWF c hc
  simp only [Bool.and_eq_true, decide_eq_true_eq] at this
  tauto

lemma clampByte_of_wf (v : ℤ) (h0 : 0 ≤ v) (h255 : v ≤ 255) :
    clampByte v = v.toNat := by
  unfold clampByte
  omega

lemma set_getElem?_self (l : List Nat) : ∀ (i v : Nat), l[i]? = some v → l.set i v = l := by
  induction l with
  | nil => intro i v h; simp at h
  | cons a t ih =>
    intro i v h
    cases i with
    | zero =>
      rw [List.getElem?_cons_zero] at h
      cases h
      rfl
    | succ i' =>
      rw [List.getElem?_cons_succ] at h
      simp only [List.set_cons_succ]
      rw [ih i' v h]

lemma findClosestColorU_nil (r g b : Option Nat) :
    findClosestColorU r g b [] = none := by
  unfold findClosestColorU
  cases r <;> cases g <;> cases b <;> rfl

lemma findClosestColorU_isSome (r g b : Option Nat) (p0 : RGB) (ps : List RGB) :
    ∃ c, findClosestColorU r g b (p0 :: ps) = some c := by
  unfold findClosestColorU
  cases r <;> cases g <;> cases b <;>
    first
      | exact ⟨p0, rfl⟩
      | exact Option.isSome_iff_exists.1 (findClosestColor_isSome _ p0 ps)

lemma findClosestColorU_mem (r g b : Option Nat) (P : List RGB) (c : RGB)
    (h : findClosestColorU r g b P = some c) : c ∈ P := by
  unfold findClosestColorU at h
  cases r <;> cases g <;> cases b <;>
    first
      | exact List.mem_of_mem_head? h
      | exact findClosestColor_mem _ c P h

lemma writeData_imageData (s : JSHeap) (i v : Nat) :
    (writeData s i v).imageData = s.imageData := rfl

lemma distChannel_imageData (s : JSHeap) (n : Nat) (err : Option ℤ) (f : ℚ) :
    (distChannel s n err f).imageData = s.imageData := by
  unfold distChannel
  cases s.data[n]? <;> cases err <;> rfl

lemma distributeError_imageData (w h x y : Nat) (eR eG eB : Option ℤ)
    (dx dy : ℤ) (f : ℚ) (s : JSHeap) :
    (distributeError w h x y eR eG eB dx dy f s).imageData = s.imageData := by
  unfold distributeError
  by_cases hc : 0 ≤ (x : ℤ) + dx ∧ (x : ℤ) + dx < (w : ℤ) ∧
      0 ≤ (y : ℤ) + dy ∧ (y : ℤ) + dy < (h : ℤ)
  · simp only [if_pos hc, distChannel_imageData]
  · simp only [if_neg hc]

lemma ditherPixel_imageData (w h : Nat) (P : List RGB) (x y : Nat)
    (s t : JSHeap) (ht : ditherPixel w h P x y s = some t) :
    t.imageData = s.imageData := by
  simp only [ditherPixel] at ht
  rcases hU : findClosestColorU s.data[(y * w + x) * 3]? s.data[(y * w + x) * 3 + 1]?
      s.data[(y * w + x) * 3 + 2]? P with _ | np
  · rw [hU] at ht; exact absurd ht (by simp)
  · rw [hU] at ht
    simp only [Option.some.injEq] at ht
    rw [← ht]
    simp only [distributeError_imageData, writeData_imageData]

lemma foldlM_imageData (f : JSHeap → Nat → Option JSHeap)
    (hf : ∀ s a t, f s a = some t → t.imageData = s.imageData) :
    ∀ (l : List Nat) (s t : JSHeap), l.foldlM f s = some t →
      t.imageData = s.imageData := by
  intro l
  induction l with
  | nil =>
    intro s t h
    simp only [List.foldlM_nil] at h
    cases h
    rfl
  | cons a l2 ih =>
    intro s t h
    simp only [List.foldlM_cons] at h
    rcases Option.bind_eq_some.1 h with ⟨mid, hmid, hrest⟩
    rw [ih mid t hrest, hf s a mid hmid]

lemma ditherRun_imageData (data : List Nat) (w h : Nat) (P : List RGB)
    (t : JSHeap) (ht : ditherRun data w h P = some t) : t.imageData = data := by
  unfold ditherRun at ht
  exact foldlM_imageData _
    (fun s y t2 ht2 => foldlM_imageData _
      (fun s2 x t3 ht3 => ditherPixel_imageData w h P x y s2 t3 ht3)
      (List.range w) s t2 ht2)
    (List.range h) _ t ht

lemma quantizeLoop_imageData (P : List RGB) : ∀ (fuel i : Nat) (s t : JSHeap),
    quantizeLoop P fuel i s = some t → t.imageData = s.imageData := by
  intro fuel
  induction fuel with
  | zero =>
    intro i s t h
    simp only [quantizeLoop] at h
    cases h
    rfl
  | succ f ih =>
    intro i s t h
    simp only [quantizeLoop] at h
    by_cases hi : i < s.data.length
    · rw [if_pos hi] at h
      rcases hU : findClosestColorU s.data[i]? s.data[i + 1]? s.data[i + 2]? P with _ | np
      · rw [hU] at h; exact absurd h (by simp)
      · rw [hU] at h
        simp only at h
        rw [ih (i + 3) _ t h]
        rfl
    · rw [if_neg hi] at h
      cases h
      rfl

/-- C6: neither engine mutates the caller-supplied buffer: both copy the
input into a fresh working array on entry (`JSHeap` with `data` a copy of
`imageData`) and every store targets the working array, so the caller's
buffer in the final heap equals the input byte for byte. -/
theorem C6_input_buffer_unchanged (data : List Nat) (w h : Nat)
    (P : List RGB) (t1 t2 : JSHeap)
    (h1 : quantizeRun data w h P = some t1)
    (h2 : ditherRun data w h P = some t2) :
    t1.imageData = data ∧ t2.imageData = data :=
  ⟨quantizeLoop_imageData P data.length 0 ⟨data, data⟩ t1 h1,
    ditherRun_imageData data w h P t2 h2⟩

/-- Witness for C6 at a concrete input. -/
theorem C6_input_buffer_unchanged_witness :
    (⟨[10, 10, 10], [0, 0, 0]⟩ : JSHeap).imageData = [10, 10, 10] ∧
    (⟨[10, 10, 10], [0, 0, 0]⟩ : JSHeap).imageData = [10, 10, 10] :=
  C6_input_buffer_unchanged [10, 10, 10] 1 1 [⟨0, 0, 0⟩] ⟨[10, 10, 10], [0, 0, 0]⟩
    ⟨[10, 10, 10], [0, 0, 0]⟩ (by decide) (by decide)

end InkyFrame

namespace InkyFrame

lemma getElem?_exists (l : List Nat) (i : Nat) (h : i < l.length) :
    ∃ v, l[i]? = some v :=
  ⟨l.get ⟨i, h⟩, by simp⟩

lemma quantizeLoop_spec (p0 : RGB) (ps : List RGB)
    (hWF : paletteWF (p0 :: ps) = true) :
    ∀ (fuel i : Nat) (s : JSHeap), s.data.length ≤ i + 3 * fuel → 3 ∣ i →
      3 ∣ s.data.length →
      ∃ t, quantizeLoop (p0 :: ps) fuel i s = some t ∧
        t.imageData = s.imageData ∧
        t.data.length = s.data.length ∧
        (∀ j, j < i → t.data[j]? = s.data[j]?) ∧
        (∀ k, i ≤ 3 * k → 3 * k + 2 < s.data.length →
          groupIn t.data k (p0 :: ps) = true) := by
  intro fuel
  induction fuel with
  | zero =>
    intro i s hle _ _
    exact ⟨s, rfl, rfl, rfl, fun j _ => rfl,
      fun k hk1 hk2 => absurd hk2 (by omega)⟩
  | succ f ih =>
    intro i s hle hdvd hdlen
    by_cases hi : i < s.data.length
    · have hi2 : i + 2 < s.data.length := by omega
      obtain ⟨vR, hvR⟩ := getElem?_exists s.data i (by omega)
      obtain ⟨vG, hvG⟩ := getElem?_exists s.data (i + 1) (by omega)
      obtain ⟨vB, hvB⟩ := getElem?_exists s.data (i + 2) (by omega)
      obtain ⟨np, hnp⟩ := Option.isSome_iff_exists.1
        (findClosestColor_isSome ⟨(vR : ℤ), (vG : ℤ), (vB : ℤ)⟩ p0 ps)
      have hmem := findClosestColor_mem _ np _ hnp
      have hbounds := paletteWF_mem _ np hWF hmem
      have hs1data : (writeData (writeData (writeData s i (clampByte np.r))
          (i + 1) (clampByte np.g)) (i + 2) (clampByte np.b)).data =
          ((s.data.set i (clampByte np.r)).set (i + 1) (clampByte np.g)).set
            (i + 2) (clampByte np.b) := rfl
      have hs1len : (writeData (writeData (writeData s i (clampByte np.r))
          (i + 1) (clampByte np.g)) (i + 2) (clampByte np.b)).data.length =
          s.data.length := by
        rw [hs1data]
        simp [List.length_set]
      obtain ⟨t, hloop, him, hlen2, hpres, hgroups⟩ :=
        ih (i + 3) (writeData (writeData (writeData s i (clampByte np.r))
          (i + 1) (clampByte np.g)) (i + 2) (clampByte np.b))
          (by rw [hs1len]; omega) (by omega) (by rw [hs1len]; exact hdlen)
      have hs1at0 : (writeData (writeData (writeData s i (clampByte np.r))
          (i + 1) (clampByte np.g)) (i + 2) (clampByte np.b)).data[i]? =
          some (clampByte np.r) := by
        rw [hs1data, List.getElem?_set_ne (by omega), List.getElem?_set_ne (by omega),
          List.getElem?_set_self (by omega)]
      have hs1at1 : (writeData (writeData (writeData s i (clampByte np.r))
          (i + 1) (clampByte np.g)) (i + 2) (clampByte np.b)).data[i + 1]? =
          some (clampByte np.g) := by
        rw [hs1data, List.getElem?_set_ne (by omega),
          List.getElem?_set_self (by simp [List.length_set]; omega)]
      have hs1at2 : (writeData (writeData (writeData s i (clampByte np.r))
          (i + 1) (clampByte np.g)) (i + 2) (clampByte np.b)).data[i + 2]? =
          some (clampByte np.b) := by
        rw [hs1data, List.getElem?_set_self (by simp [List.length_set]; omega)]
      refine ⟨t, ?_, ?_, ?_, ?_, ?_⟩
      · simp only [quantizeLoop, if_pos hi, hvR, hvG, hvB]
        rw [show findClosestColorU (some vR) (some vG) (some vB) (p0 :: ps) =
          some np from by rw [← hnp]; rfl]
        exact hloop
      · rw [him]; rfl
      · rw [hlen2, hs1len]
      · intro j hj
        rw [hpres j (by omega), hs1data,
          List.getElem?_set_ne (by omega), List.getElem?_set_ne (by omega),
          List.getElem?_set_ne (by omega)]
      · intro k hk1 hk2
        by_cases hk3 : i + 3 ≤ 3 * k
        · exact hgroups k hk3 (by rw [hs1len]; exact hk2)
        · have h3k : 3 * k = i := by omega
          have e1 : t.data[3 * k]? = some (clampByte np.r) := by
            rw [h3k, hpres i (by omega)]
            exact hs1at0
          have e2 : t.data[3 * k + 1]? = some (clampByte np.g) := by
            rw [h3k, hpres (i + 1) (by omega)]
            exact hs1at1
          have e3 : t.data[3 * k + 2]? = some (clampByte np.b) := by
            rw [h3k, hpres (i + 2) (by omega)]
            exact hs1at2
          refine List.any_eq_true.2 ⟨np, hmem, ?_⟩
          unfold pixelEq
          rw [e1, e2, e3, clampByte_of_wf _ (by tauto) (by tauto),
            clampByte_of_wf _ (by tauto) (by tauto),
            clampByte_of_wf _ (by tauto) (by tauto)]
          simp
    · refine ⟨s, ?_, rfl, rfl, fun j _ => rfl,
        fun k hk1 hk2 => absurd hk2 (by omega)⟩
      simp only [quantizeLoop, if_neg hi]

end InkyFrame

namespace InkyFrame

lemma groupIn_bytes (data : List Nat) (k : Nat) (P : List RGB)
    (h : groupIn data k P = true) :
    ∃ c ∈ P, data[3 * k]? = some c.r.toNat ∧ data[3 * k + 1]? = some c.g.toNat ∧
      data[3 * k + 2]? = some c.b.toNat := by
  obtain ⟨c, hc, hpe⟩ := List.any_eq_true.1 h
  unfold pixelEq at hpe
  simp only [Bool.and_eq_true, beq_iff_eq] at hpe
  exact ⟨c, hc, hpe.1.1, hpe.1.2, hpe.2⟩

lemma quantizeLoop_fixed (p0 : RGB) (ps : List RGB)
    (hWF : paletteWF (p0 :: ps) = true) :
    ∀ (fuel i : Nat) (s : JSHeap), s.data.length ≤ i + 3 * fuel → 3 ∣ i →
      3 ∣ s.data.length →
      (∀ k, i ≤ 3 * k → 3 * k + 2 < s.data.length →
        groupIn s.data k (p0 :: ps) = true) →
      quantizeLoop (p0 :: ps) fuel i s = some s := by
  intro fuel
  induction fuel with
  | zero =>
    intro i s _ _ _ _
    rfl
  | succ f ih =>
    intro i s hle hdvd hdlen hgroups
    by_cases hi : i < s.data.length
    · have hi2 : i + 2 < s.data.length := by omega
      have h3k : 3 * (i / 3) = i := by omega
      obtain ⟨c, hcmem, hc0, hc1, hc2⟩ :=
        groupIn_bytes s.data (i / 3) (p0 :: ps)
          (hgroups (i / 3) (by omega) (by omega))
      rw [h3k] at hc0 hc1 hc2
      have hbounds := paletteWF_mem _ c hWF hcmem
      have hsample : (⟨(c.r.toNat : ℤ), (c.g.toNat : ℤ), (c.b.toNat : ℤ)⟩ : RGB) = c := by
        obtain ⟨cr, cg, cb⟩ := c
        simp only [RGB.mk.injEq]
        refine ⟨?_, ?_, ?_⟩ <;>
          exact Int.toNat_of_nonneg (by tauto)
      have hfcc : findClosestColor ⟨(c.r.toNat : ℤ), (c.g.toNat : ℤ), (c.b.toNat : ℤ)⟩
          (p0 :: ps) = some c := by
        rw [hsample]
        exact findClosestColor_self c (p0 :: ps) hcmem
      have hset0 : s.data.set i (clampByte c.r) = s.data := by
        rw [clampByte_of_wf _ (by tauto) (by tauto)]
        exact set_getElem?_self s.data i c.r.toNat hc0
      have hset1 : s.data.set (i + 1) (clampByte c.g) = s.data := by
        rw [clampByte_of_wf _ (by tauto) (by tauto)]
        exact set_getElem?_self s.data (i + 1) c.g.toNat hc1
      have hset2 : s.data.set (i + 2) (clampByte c.b) = s.data := by
        rw [clampByte_of_wf _ (by tauto) (by tauto)]
        exact set_getElem?_self s.data (i + 2) c.b.toNat hc2
      have hwrite : writeData (writeData (writeData s i (clampByte c.r))
          (i + 1) (clampByte c.g)) (i + 2) (clampByte c.b) = s := by
        simp only [writeData]
        rw [hset0, hset1, hset2]
      simp only [quantizeLoop, if_pos hi, hc0, hc1, hc2]
      rw [show findClosestColorU (some c.r.toNat) (some c.g.toNat) (some c.b.toNat)
        (p0 :: ps) = some c from by rw [← hfcc]; rfl]
      simp only [hwrite]
      exact ih (i + 3) s (by omega) (by omega) hdlen
        (fun k hk1 hk2 => hgroups k (by omega) hk2)
    · simp only [quantizeLoop, if_neg hi]

/-- C1 (direct-strategy half is derived from this): running the direct
quantizer over a heap yields a heap whose pixels are all palette members. -/
lemma quantizeToEinkPalette_spec (data : List Nat) (w h : Nat) (p0 : RGB)
    (ps : List RGB) (hWF : paletteWF (p0 :: ps) = true)
    (hlen : data.length = w * h * 3) :
    ∃ out, quantizeToEinkPalette data w h (p0 :: ps) = some out ∧
      out.length = data.length ∧
      ∀ k, k < w * h → groupIn out k (p0 :: ps) = true := by
  obtain ⟨t, hloop, _, hlen2, _, hgroups⟩ :=
    quantizeLoop_spec p0 ps hWF data.length 0 ⟨data, data⟩
      (by simp; omega) ⟨0, rfl⟩ (by exact ⟨w * h, by rw [hlen]; ring⟩)
  refine ⟨t.data, ?_, by simpa using hlen2, ?_⟩
  · unfold quantizeToEinkPalette quantizeRun
    rw [hloop]
    rfl
  · intro k hk
    exact hgroups k (by omega) (by simp only; omega)

end InkyFrame

namespace InkyFrame

lemma foldlM_inv (f : JSHeap → Nat → Option JSHeap) (Inv : JSHeap → Nat → Prop)
    (hf : ∀ s a, Inv s a → ∃ t, f s a = some t ∧ Inv t (a + 1)) :
    ∀ (cnt start : Nat) (s : JSHeap), Inv s start →
      ∃ t, (List.range' start cnt).foldlM f s = some t ∧ Inv t (start + cnt) := by
  intro cnt
  induction cnt with
  | zero =>
    intro start s hs
    exact ⟨s, by simp [List.range'_zero], by simpa using hs⟩
  | succ n ih =>
    intro start s hs
    obtain ⟨t1, ht1, hinv1⟩ := hf s start hs
    obtain ⟨t, ht, hinv⟩ := ih (start + 1) t1 hinv1
    refine ⟨t, ?_, ?_⟩
    · rw [List.range'_succ, List.foldlM_cons, ht1]
      simpa using ht
    · rw [show start + (n + 1) = start + 1 + n from by omega]
      exact hinv

lemma ditherPixel_isSome (w h : Nat) (p0 : RGB) (ps : List RGB) (x y : Nat)
    (s : JSHeap) : ∃ t, ditherPixel w h (p0 :: ps) x y s = some t := by
  obtain ⟨np, hnp⟩ := findClosestColorU_isSome s.data[(y * w + x) * 3]?
    s.data[(y * w + x) * 3 + 1]? s.data[(y * w + x) * 3 + 2]? p0 ps
  have hs : (ditherPixel w h (p0 :: ps) x y s).isSome = true := by
    simp only [ditherPixel, hnp, Option.isSome_some]
  exact Option.isSome_iff_exists.1 hs

lemma quantizeLoop_isSome (p0 : RGB) (ps : List RGB) :
    ∀ (fuel i : Nat) (s : JSHeap), ∃ t, quantizeLoop (p0 :: ps) fuel i s = some t := by
  intro fuel
  induction fuel with
  | zero => intro i s; exact ⟨s, rfl⟩
  | succ f ih =>
    intro i s
    by_cases hi : i < s.data.length
    · obtain ⟨np, hnp⟩ := findClosestColorU_isSome s.data[i]? s.data[i + 1]?
        s.data[i + 2]? p0 ps
      obtain ⟨t, ht⟩ := ih (i + 3) (writeData (writeData (writeData s i
        (clampByte np.r)) (i + 1) (clampByte np.g)) (i + 2) (clampByte np.b))
      refine ⟨t, ?_⟩
      simp only [quantizeLoop, if_pos hi, hnp]
      exact ht
    · exact ⟨s, by simp only [quantizeLoop, if_neg hi]⟩

lemma quantizeToEinkPalette_empty (d0 : Nat) (ds : List Nat) (w h : Nat) :
    quantizeToEinkPalette (d0 :: ds) w h [] = none := by
  unfold quantizeToEinkPalette quantizeRun
  simp only [List.length_cons, quantizeLoop, findClosestColorU_nil]
  rw [if_pos (show 0 < ds.length + 1 from Nat.succ_pos ds.length)]
  rfl

lemma ditherPixel_empty (w h x y : Nat) (s : JSHeap) :
    ditherPixel w h [] x y s = none := by
  simp only [ditherPixel, findClosestColorU_nil]

lemma applyFloydSteinbergDithering_empty (data : List Nat) (w h : Nat)
    (hw : 0 < w) (hh : 0 < h) :
    applyFloydSteinbergDithering data w h [] = none := by
  obtain ⟨w2, rfl⟩ : ∃ w2, w = w2 + 1 := ⟨w - 1, by omega⟩
  obtain ⟨h2, rfl⟩ : ∃ h2, h = h2 + 1 := ⟨h - 1, by omega⟩
  unfold applyFloydSteinbergDithering ditherRun
  simp [List.range_succ_eq_map, List.foldlM_cons, ditherPixel_empty]

/-- C5, counterexample to the claim as stated: calls whose buffer length
does not match `width*height*3` are NOT rejected.  A 3-byte buffer passed
with stated dimensions 5x5 (expecting 75 bytes) is quantized successfully,
and a 6-byte buffer passed to the ditherer with dimensions 1x1 (expecting
3 bytes) succeeds and copies the 3 trailing bytes through. -/
theorem C5_counterexample :
    quantizeToEinkPalette [10, 10, 10] 5 5 [⟨0, 0, 0⟩] = some [0, 0, 0] ∧
    applyFloydSteinbergDithering [10, 10, 10, 9, 9, 9] 1 1 [⟨0, 0, 0⟩] =
      some [0, 0, 0, 9, 9, 9] := by
  decide

/-- C5, amended: with an empty palette (and at least one byte, resp. one
pixel, to process) both engines do fail with a thrown `TypeError`
(modelled as `none`) — but a buffer-length mismatch is never detected:
with any non-empty palette both engines return a result (`isSome`)
regardless of any relation between the buffer length and
`width*height*3`. -/
theorem C5_amended_failfast (data : List Nat) (w h : Nat) (P : List RGB)
    (hd : data ≠ []) (hw : 0 < w) (hh : 0 < h) (hP : P ≠ []) :
    quantizeToEinkPalette data w h [] = none ∧
    applyFloydSteinbergDithering data w h [] = none ∧
    (quantizeToEinkPalette data w h P).isSome = true ∧
    (applyFloydSteinbergDithering data w h P).isSome = true := by
  obtain ⟨d0, ds, rfl⟩ := List.exists_cons_of_ne_nil hd
  obtain ⟨p0, ps, rfl⟩ := List.exists_cons_of_ne_nil hP
  refine ⟨quantizeToEinkPalette_empty d0 ds w h,
    applyFloydSteinbergDithering_empty _ w h hw hh, ?_, ?_⟩
  · obtain ⟨t, ht⟩ := quantizeLoop_isSome p0 ps (d0 :: ds).length 0
      ⟨d0 :: ds, d0 :: ds⟩
    unfold quantizeToEinkPalette quantizeRun
    rw [ht]
    rfl
  · have hrow : ∀ (s : JSHeap) (y : Nat),
        ∃ t, (List.range' 0 w).foldlM
          (fun s x => ditherPixel w h (p0 :: ps) x y s) s = some t := by
      intro s y
      obtain ⟨t, ht, _⟩ := foldlM_inv
        (fun s x => ditherPixel w h (p0 :: ps) x y s) (fun _ _ => True)
        (fun s a _ => by
          obtain ⟨t, ht⟩ := ditherPixel_isSome w h p0 ps a y s
          exact ⟨t, ht, trivial⟩)
        w 0 s trivial
      exact ⟨t, ht⟩
    obtain ⟨t, ht, _⟩ := foldlM_inv
      (fun s y => (List.range' 0 w).foldlM
        (fun s x => ditherPixel w h (p0 :: ps) x y s) s) (fun _ _ => True)
      (fun s a _ => by
        obtain ⟨t, ht⟩ := hrow s a
        exact ⟨t, ht, trivial⟩)
      h 0 ⟨d0 :: ds, d0 :: ds⟩ trivial
    unfold applyFloydSteinbergDithering ditherRun
    rw [List.range_eq_range' w, List.range_eq_range' h, ht]
    rfl

/-- Witness for C5's amended statement at concrete inputs. -/
theorem C5_amended_failfast_witness :
    quantizeToEinkPalette [10, 10, 10] 1 1 [] = none ∧
    applyFloydSteinbergDithering [10, 10, 10] 1 1 [] = none ∧
    (quantizeToEinkPalette [10, 10, 10] 1 1 [⟨0, 0, 0⟩]).isSome = true ∧
    (applyFloydSteinbergDithering [10, 10, 10] 1 1 [⟨0, 0, 0⟩]).isSome = true :=
  C5_amended_failfast [10, 10, 10] 1 1 [⟨0, 0, 0⟩] (by decide) (by decide)
    (by decide) (by decide)

/-- C7: the direct strategy is idempotent on rasters: its output, fed back
in with the same (non-empty, well-formed, duplicate-free) palette, is
returned unchanged, because every output pixel already equals a palette
entry whose nearest match at distance zero is itself. -/
theorem C7_direct_idempotent (data : List Nat) (w h : Nat) (P : List RGB)
    (hP : P ≠ []) (hWF : paletteWF P = true) (hnd : P.Nodup)
    (hlen : data.length = w * h * 3) :
    (quantizeToEinkPalette data w h P).bind
      (fun out => quantizeToEinkPalette out w h P) =
      quantizeToEinkPalette data w h P := by
  obtain ⟨p0, ps, rfl⟩ := List.exists_cons_of_ne_nil hP
  obtain ⟨out, hout, hlenout, hgroups⟩ :=
    quantizeToEinkPalette_spec data w h p0 ps hWF hlen
  rw [hout]
  simp only [Option.some_bind]
  have hfix := quantizeLoop_fixed p0 ps hWF out.length 0 ⟨out, out⟩
    (by simp only; omega) ⟨0, rfl⟩
    (by simp only; rw [hlenout, hlen]; exact ⟨w * h, by ring⟩)
    (fun k hk1 hk2 => hgroups k (by
      simp only at hk2
      rw [hlenout, hlen] at hk2
      omega))
  unfold quantizeToEinkPalette quantizeRun
  rw [hfix]
  rfl

/-- Witness for C7 at a concrete input. -/
theorem C7_direct_idempotent_witness :
    (quantizeToEinkPalette [10, 10, 10] 1 1 [⟨0, 0, 0⟩, ⟨255, 255, 255⟩]).bind
      (fun out => quantizeToEinkPalette out 1 1 [⟨0, 0, 0⟩, ⟨255, 255, 255⟩]) =
      quantizeToEinkPalette [10, 10, 10] 1 1 [⟨0, 0, 0⟩, ⟨255, 255, 255⟩] :=
  C7_direct_idempotent [10, 10, 10] 1 1 [⟨0, 0, 0⟩, ⟨255, 255, 255⟩]
    (by decide) (by decide) (by decide) (by decide)

end InkyFrame

namespace InkyFrame

lemma distChannel_data_length (s : JSHeap) (n : Nat) (e : Option ℤ) (f : ℚ) :
    (distChannel s n e f).data.length = s.data.length := by
  unfold distChannel
  cases s.data[n]? <;> cases e <;> simp [writeData, List.length_set]

lemma distChannel_getElem?_ne (s : JSHeap) (n : Nat) (e : Option ℤ) (f : ℚ)
    (j : Nat) (hj : n ≠ j) : (distChannel s n e f).data[j]? = s.data[j]? := by
  unfold distChannel
  cases s.data[n]? <;> cases e <;>
    simp [writeData, List.getElem?_set_ne hj]

lemma distributeError_data_length (w h x y : Nat) (eR eG eB : Option ℤ)
    (dx dy : ℤ) (f : ℚ) (s : JSHeap) :
    (distributeError w h x y eR eG eB dx dy f s).data.length = s.data.length := by
  unfold distributeError
  by_cases hc : 0 ≤ (x : ℤ) + dx ∧ (x : ℤ) + dx < (w : ℤ) ∧
      0 ≤ (y : ℤ) + dy ∧ (y : ℤ) + dy < (h : ℤ)
  · simp only [if_pos hc, distChannel_data_length]
  · simp only [if_neg hc]

lemma distributeError_getElem?_before (w h x y : Nat) (eR eG eB : Option ℤ)
    (dx dy : ℤ) (f : ℚ) (s : JSHeap) (hdy : 0 ≤ dy) (hdx0 : dy = 0 → 1 ≤ dx)
    (hxlt : x < w) (j : Nat) (hj : j < (y * w + x + 1) * 3) :
    (distributeError w h x y eR eG eB dx dy f s).data[j]? = s.data[j]? := by
  unfold distributeError
  by_cases hc : 0 ≤ (x : ℤ) + dx ∧ (x : ℤ) + dx < (w : ℤ) ∧
      0 ≤ (y : ℤ) + dy ∧ (y : ℤ) + dy < (h : ℤ)
  · obtain ⟨hX0, hXw, hY0, hYh⟩ := hc
    have hYX : ((y * w + x + 1 : Nat) : ℤ) ≤
        ((y : ℤ) + dy) * (w : ℤ) + ((x : ℤ) + dx) := by
      push_cast
      rcases (show dy = 0 ∨ 1 ≤ dy from by omega) with hdy0 | hdy1
      · subst hdy0
        have hdx1 := hdx0 rfl
        have hexp : ((y : ℤ) + 0) * (w : ℤ) = (y : ℤ) * (w : ℤ) := by ring
        rw [hexp]
        linarith
      · have hw0 : (0 : ℤ) ≤ (w : ℤ) := by positivity
        have hdyw : (w : ℤ) ≤ dy * (w : ℤ) := le_mul_of_one_le_left hw0 hdy1
        have hxw : (x : ℤ) + 1 ≤ (w : ℤ) := by exact_mod_cast hxlt
        have hexp : ((y : ℤ) + dy) * (w : ℤ) =
            (y : ℤ) * (w : ℤ) + dy * (w : ℤ) := by ring
        rw [hexp]
        linarith
    have hn : (y * w + x + 1) * 3 ≤
        (((((y : ℤ) + dy) * (w : ℤ) + ((x : ℤ) + dx)) * 3)).toNat := by
      have h3 : (((y * w + x + 1) * 3 : Nat) : ℤ) ≤
          ((((y : ℤ) + dy) * (w : ℤ) + ((x : ℤ) + dx)) * 3) := by
        push_cast
        push_cast at hYX
        linarith
      calc (y * w + x + 1) * 3
          = (((y * w + x + 1) * 3 : Nat) : ℤ).toNat := by rw [Int.toNat_natCast]
        _ ≤ _ := Int.toNat_le_toNat h3
    rw [if_pos ⟨hX0, hXw, hY0, hYh⟩]
    simp only
    rw [distChannel_getElem?_ne _ _ _ _ _ (by omega),
      distChannel_getElem?_ne _ _ _ _ _ (by omega),
      distChannel_getElem?_ne _ _ _ _ _ (by omega)]
  · rw [if_neg hc]

lemma distributeError_getElem?_past (w h x y : Nat) (eR eG eB : Option ℤ)
    (dx dy : ℤ) (f : ℚ) (s : JSHeap) (j : Nat) (hj : w * h * 3 ≤ j) :
    (distributeError w h x y eR eG eB dx dy f s).data[j]? = s.data[j]? := by
  unfold distributeError
  by_cases hc : 0 ≤ (x : ℤ) + dx ∧ (x : ℤ) + dx < (w : ℤ) ∧
      0 ≤ (y : ℤ) + dy ∧ (y : ℤ) + dy < (h : ℤ)
  · obtain ⟨hX0, hXw, hY0, hYh⟩ := hc
    have hup : ((((y : ℤ) + dy) * (w : ℤ) + ((x : ℤ) + dx)) * 3) + 2 <
        ((w * h * 3 : Nat) : ℤ) := by
      have hYle : (y : ℤ) + dy ≤ (h : ℤ) - 1 := by linarith
      have hXle : (x : ℤ) + dx ≤ (w : ℤ) - 1 := by linarith
      have hw0 : (0 : ℤ) ≤ (w : ℤ) := by positivity
      have hYw : ((y : ℤ) + dy) * (w : ℤ) ≤ ((h : ℤ) - 1) * (w : ℤ) :=
        mul_le_mul_of_nonneg_right hYle hw0
      have hexp : ((h : ℤ) - 1) * (w : ℤ) = (h : ℤ) * (w : ℤ) - (w : ℤ) := by ring
      push_cast
      nlinarith
    have hnn : 0 ≤ (((y : ℤ) + dy) * (w : ℤ) + ((x : ℤ) + dx)) * 3 := by
      have hw0 : (0 : ℤ) ≤ (w : ℤ) := by positivity
      nlinarith
    obtain ⟨m, hm⟩ := Int.eq_ofNat_of_zero_le hnn
    have hmlt : m + 2 < w * h * 3 := by
      rw [hm] at hup
      exact_mod_cast hup
    rw [if_pos ⟨hX0, hXw, hY0, hYh⟩]
    simp only
    rw [hm, Int.toNat_natCast]
    rw [distChannel_getElem?_ne _ _ _ _ _ (by omega),
      distChannel_getElem?_ne _ _ _ _ _ (by omega),
      distChannel_getElem?_ne _ _ _ _ _ (by omega)]
  · rw [if_neg hc]

lemma ditherPixel_data_length (w h : Nat) (P : List RGB) (x y : Nat)
    (s t : JSHeap) (ht : ditherPixel w h P x y s = some t) :
    t.data.length = s.data.length := by
  simp only [ditherPixel] at ht
  rcases hU : findClosestColorU s.data[(y * w + x) * 3]? s.data[(y * w + x) * 3 + 1]?
      s.data[(y * w + x) * 3 + 2]? P with _ | np
  · rw [hU] at ht; exact absurd ht (by simp)
  · rw [hU] at ht
    simp only [Option.some.injEq] at ht
    rw [← ht]
    simp only [distributeError_data_length, writeData, List.length_set]

end InkyFrame

namespace InkyFrame

lemma pixel_lt (w h x y : Nat) (hx : x < w) (hy : y < h) : y * w + x < w * h := by
  have h1 : y * w + x < (y + 1) * w := by
    rw [Nat.add_mul, Nat.one_mul]
    omega
  have h2 : (y + 1) * w ≤ h * w := Nat.mul_le_mul_right w hy
  have h3 : y * w + x < h * w := lt_of_lt_of_le h1 h2
  rw [Nat.mul_comm w h]
  exact h3

lemma groupIn_congr (d1 d2 : List Nat) (k : Nat) (P : List RGB)
    (h0 : d1[3 * k]? = d2[3 * k]?) (h1 : d1[3 * k + 1]? = d2[3 * k + 1]?)
    (h2 : d1[3 * k + 2]? = d2[3 * k + 2]?) :
    groupIn d1 k P = groupIn d2 k P := by
  unfold groupIn pixelEq
  simp only [h0, h1, h2]

lemma foldlM_inv_bounded (f : JSHeap → Nat → Option JSHeap)
    (Inv : JSHeap → Nat → Prop) :
    ∀ (lo cnt : Nat),
      (∀ s a, lo ≤ a → a < lo + cnt → Inv s a → ∃ t, f s a = some t ∧ Inv t (a + 1)) →
      ∀ (s : JSHeap), Inv s lo →
      ∃ t, (List.range' lo cnt).foldlM f s = some t ∧ Inv t (lo + cnt) := by
  intro lo cnt
  induction cnt generalizing lo with
  | zero =>
    intro hf s hs
    exact ⟨s, by simp [List.range'_zero], by simpa using hs⟩
  | succ n ih =>
    intro hf s hs
    obtain ⟨t1, ht1, hinv1⟩ := hf s lo (le_refl lo) (by omega) hs
    obtain ⟨t, ht, hinv⟩ := ih (lo + 1)
      (fun s a ha1 ha2 hInv => hf s a (by omega) (by omega) hInv) t1 hinv1
    refine ⟨t, ?_, ?_⟩
    · rw [List.range'_succ, List.foldlM_cons, ht1]
      simpa using ht
    · rw [show lo + (n + 1) = lo + 1 + n from by omega]
      exact hinv

lemma ditherPixel_step (w h x y : Nat) (p0 : RGB) (ps : List RGB)
    (hWF : paletteWF (p0 :: ps) = true) (hx : x < w) (hy : y < h) (s : JSHeap)
    (hlen : s.data.length = w * h * 3)
    (hquant : ∀ k, k < y * w + x → groupIn s.data k (p0 :: ps) = true) :
    ∃ t, ditherPixel w h (p0 :: ps) x y s = some t ∧
      t.data.length = w * h * 3 ∧
      (∀ k, k < y * w + x + 1 → groupIn t.data k (p0 :: ps) = true) := by
  have hpx : y * w + x < w * h := pixel_lt w h x y hx hy
  have hidx : (y * w + x) * 3 + 2 < s.data.length := by rw [hlen]; omega
  obtain ⟨vR, hvR⟩ := getElem?_exists s.data ((y * w + x) * 3) (by omega)
  obtain ⟨vG, hvG⟩ := getElem?_exists s.data ((y * w + x) * 3 + 1) (by omega)
  obtain ⟨vB, hvB⟩ := getElem?_exists s.data ((y * w + x) * 3 + 2) (by omega)
  obtain ⟨np, hnp⟩ := Option.isSome_iff_exists.1
    (findClosestColor_isSome ⟨(vR : ℤ), (vG : ℤ), (vB : ℤ)⟩ p0 ps)
  have hmem := findClosestColor_mem _ np _ hnp
  have hbounds := paletteWF_mem _ np hWF hmem
  have hU2 : findClosestColorU (some vR) (some vG) (some vB) (p0 :: ps) = some np := by
    rw [← hnp]
    rfl
  have hcomp : ditherPixel w h (p0 :: ps) x y s =
      some (distributeError w h x y (some ((vR : ℤ) - np.r)) (some ((vG : ℤ) - np.g))
        (some ((vB : ℤ) - np.b)) 1 1 (1 / 16)
        (distributeError w h x y (some ((vR : ℤ) - np.r)) (some ((vG : ℤ) - np.g))
          (some ((vB : ℤ) - np.b)) 0 1 (5 / 16)
          (distributeError w h x y (some ((vR : ℤ) - np.r)) (some ((vG : ℤ) - np.g))
            (some ((vB : ℤ) - np.b)) (-1) 1 (3 / 16)
            (distributeError w h x y (some ((vR : ℤ) - np.r)) (some ((vG : ℤ) - np.g))
              (some ((vB : ℤ) - np.b)) 1 0 (7 / 16)
              (writeData (writeData (writeData s ((y * w + x) * 3) (clampByte np.r))
                ((y * w + x) * 3 + 1) (clampByte np.g))
                ((y * w + x) * 3 + 2) (clampByte np.b)))))) := by
    simp only [ditherPixel, hvR, hvG, hvB, hU2, Option.map_some']
  have hs1len : (writeData (writeData (writeData s ((y * w + x) * 3) (clampByte np.r))
      ((y * w + x) * 3 + 1) (clampByte np.g))
      ((y * w + x) * 3 + 2) (clampByte np.b)).data.length = s.data.length := by
    simp [writeData, List.length_set]
  have hs1data : (writeData (writeData (writeData s ((y * w + x) * 3) (clampByte np.r))
      ((y * w + x) * 3 + 1) (clampByte np.g))
      ((y * w + x) * 3 + 2) (clampByte np.b)).data =
      ((s.data.set ((y * w + x) * 3) (clampByte np.r)).set ((y * w + x) * 3 + 1)
        (clampByte np.g)).set ((y * w + x) * 3 + 2) (clampByte np.b) := rfl
  refine ⟨_, hcomp, ?_, ?_⟩
  · simp only [distributeError_data_length, hs1len, hlen]
  · have hdrop : ∀ j, j < (y * w + x + 1) * 3 →
        (distributeError w h x y (some ((vR : ℤ) - np.r)) (some ((vG : ℤ) - np.g))
          (some ((vB : ℤ) - np.b)) 1 1 (1 / 16)
          (distributeError w h x y (some ((vR : ℤ) - np.r)) (some ((vG : ℤ) - np.g))
            (some ((vB : ℤ) - np.b)) 0 1 (5 / 16)
            (distributeError w h x y (some ((vR : ℤ) - np.r)) (some ((vG : ℤ) - np.g))
              (some ((vB : ℤ) - np.b)) (-1) 1 (3 / 16)
              (distributeError w h x y (some ((vR : ℤ) - np.r)) (some ((vG : ℤ) - np.g))
                (some ((vB : ℤ) - np.b)) 1 0 (7 / 16)
                (writeData (writeData (writeData s ((y * w + x) * 3) (clampByte np.r))
                  ((y * w + x) * 3 + 1) (clampByte np.g))
                  ((y * w + x) * 3 + 2) (clampByte np.b)))))).data[j]? =
        (((s.data.set ((y * w + x) * 3) (clampByte np.r)).set ((y * w + x) * 3 + 1)
          (clampByte np.g)).set ((y * w + x) * 3 + 2) (clampByte np.b))[j]? := by
      intro j hj
      rw [distributeError_getElem?_before w h x y _ _ _ 1 1 _ _ (by norm_num)
          (by omega) hx j hj,
        distributeError_getElem?_before w h x y _ _ _ 0 1 _ _ (by norm_num)
          (by omega) hx j hj,
        distributeError_getElem?_before w h x y _ _ _ (-1) 1 _ _ (by norm_num)
          (by omega) hx j hj,
        distributeError_getElem?_before w h x y _ _ _ 1 0 _ _ (by norm_num)
          (by omega) hx j hj,
        hs1data]
    intro k hk
    by_cases hke : k = y * w + x
    · subst hke
      have hsetlen1 : (y * w + x) * 3 <
          (s.data.set ((y * w + x) * 3) (clampByte np.r)).length := by
        simp [List.length_set]; omega
      have e0 : (((s.data.set ((y * w + x) * 3) (clampByte np.r)).set
          ((y * w + x) * 3 + 1) (clampByte np.g)).set ((y * w + x) * 3 + 2)
          (clampByte np.b))[(y * w + x) * 3]? = some (clampByte np.r) := by
        rw [List.getElem?_set_ne (by omega), List.getElem?_set_ne (by omega),
          List.getElem?_set_self (by omega)]
      have e1 : (((s.data.set ((y * w + x) * 3) (clampByte np.r)).set
          ((y * w + x) * 3 + 1) (clampByte np.g)).set ((y * w + x) * 3 + 2)
          (clampByte np.b))[(y * w + x) * 3 + 1]? = some (clampByte np.g) := by
        rw [List.getElem?_set_ne (by omega),
          List.getElem?_set_self (by simp [List.length_set]; omega)]
      have e2 : (((s.data.set ((y * w + x) * 3) (clampByte np.r)).set
          ((y * w + x) * 3 + 1) (clampByte np.g)).set ((y * w + x) * 3 + 2)
          (clampByte np.b))[(y * w + x) * 3 + 2]? = some (clampByte np.b) := by
        rw [List.getElem?_set_self (by simp [List.length_set]; omega)]
      refine List.any_eq_true.2 ⟨np, hmem, ?_⟩
      unfold pixelEq
      rw [show 3 * (y * w + x) = (y * w + x) * 3 from by ring]
      rw [hdrop _ (by omega), hdrop _ (by omega), hdrop _ (by omega), e0, e1, e2,
        clampByte_of_wf _ (by tauto) (by tauto), clampByte_of_wf _ (by tauto) (by tauto),
        clampByte_of_wf _ (by tauto) (by tauto)]
      simp
    · have hklt : k < y * w + x := by omega
      have hpres : ∀ c, c < 3 →
          (((s.data.set ((y * w + x) * 3) (clampByte np.r)).set ((y * w + x) * 3 + 1)
            (clampByte np.g)).set ((y * w + x) * 3 + 2) (clampByte np.b))[3 * k + c]? =
          s.data[3 * k + c]? := by
        intro c hc
        rw [List.getElem?_set_ne (by omega), List.getElem?_set_ne (by omega),
          List.getElem?_set_ne (by omega)]
      have hcg : groupIn (distributeError w h x y (some ((vR : ℤ) - np.r))
          (some ((vG : ℤ) - np.g)) (some ((vB : ℤ) - np.b)) 1 1 (1 / 16)
          (distributeError w h x y (some ((vR : ℤ) - np.r)) (some ((vG : ℤ) - np.g))
            (some ((vB : ℤ) - np.b)) 0 1 (5 / 16)
            (distributeError w h x y (some ((vR : ℤ) - np.r)) (some ((vG : ℤ) - np.g))
              (some ((vB : ℤ) - np.b)) (-1) 1 (3 / 16)
              (distributeError w h x y (some ((vR : ℤ) - np.r)) (some ((vG : ℤ) - np.g))
                (some ((vB : ℤ) - np.b)) 1 0 (7 / 16)
                (writeData (writeData (writeData s ((y * w + x) * 3) (clampByte np.r))
                  ((y * w + x) * 3 + 1) (clampByte np.g))
                  ((y * w + x) * 3 + 2) (clampByte np.b)))))).data k (p0 :: ps) =
          groupIn s.data k (p0 :: ps) := by
        apply groupIn_congr
        · rw [hdrop _ (by omega)]
          exact hpres 0 (by omega)
        · rw [hdrop _ (by omega)]
          exact hpres 1 (by omega)
        · rw [hdrop _ (by omega)]
          exact hpres 2 (by omega)
      rw [hcg]
      exact hquant k hklt

end InkyFrame

namespace InkyFrame

lemma ditherRun_spec (data : List Nat) (w h : Nat) (p0 : RGB) (ps : List RGB)
    (hWF : paletteWF (p0 :: ps) = true) (hlen : data.length = w * h * 3) :
    ∃ t, ditherRun data w h (p0 :: ps) = some t ∧ t.data.length = w * h * 3 ∧
      ∀ k, k < w * h → groupIn t.data k (p0 :: ps) = true := by
  have hrow : ∀ y, y < h → ∀ s : JSHeap, s.data.length = w * h * 3 →
      (∀ k, k < y * w → groupIn s.data k (p0 :: ps) = true) →
      ∃ t, (List.range' 0 w).foldlM
        (fun s x => ditherPixel w h (p0 :: ps) x y s) s = some t ∧
        t.data.length = w * h * 3 ∧
        ∀ k, k < y * w + w → groupIn t.data k (p0 :: ps) = true := by
    intro y hy s hslen hsq
    obtain ⟨t, ht, hinv⟩ := foldlM_inv_bounded
      (fun s x => ditherPixel w h (p0 :: ps) x y s)
      (fun s x => s.data.length = w * h * 3 ∧
        ∀ k, k < y * w + x → groupIn s.data k (p0 :: ps) = true)
      0 w
      (fun s a ha0 haw hInv =>
        ditherPixel_step w h a y p0 ps hWF (by omega) hy s hInv.1 hInv.2)
      s ⟨hslen, fun k hk => hsq k (by omega)⟩
    exact ⟨t, ht, hinv.1, fun k hk => hinv.2 k (by omega)⟩
  obtain ⟨t, ht, hinv⟩ := foldlM_inv_bounded
    (fun s y => (List.range' 0 w).foldlM
      (fun s x => ditherPixel w h (p0 :: ps) x y s) s)
    (fun s y => s.data.length = w * h * 3 ∧
      ∀ k, k < y * w → groupIn s.data k (p0 :: ps) = true)
    0 h
    (fun s a ha0 hah hInv => by
      obtain ⟨t, h1, h2, h3⟩ := hrow a (by omega) s hInv.1 hInv.2
      refine ⟨t, h1, h2, ?_⟩
      intro k hk
      apply h3
      rw [Nat.add_mul, Nat.one_mul] at hk
      omega)
    ⟨data, data⟩ ⟨by simpa using hlen, fun k hk => absurd hk (by simp)⟩
  refine ⟨t, ?_, hinv.1, ?_⟩
  · unfold ditherRun
    rw [List.range_eq_range' w, List.range_eq_range' h]
    exact ht
  · intro k hk
    apply hinv.2
    simp only [Nat.zero_add]
    rw [Nat.mul_comm h w]
    exact hk

/-- C1: with a non-empty well-formed palette and a buffer of exactly
`width*height*3` bytes, every pixel of the output of the direct strategy
and every pixel of the output of the error-diffusion strategy is an exact
member of the palette. -/
theorem C1_outputs_in_palette (data : List Nat) (w h : Nat) (P : List RGB)
    (hP : P ≠ []) (hWF : paletteWF P = true) (hlen : data.length = w * h * 3)
    (k : Nat) (hk : k < w * h)
    (out1 : List Nat) (h1 : quantizeToEinkPalette data w h P = some out1)
    (out2 : List Nat) (h2 : applyFloydSteinbergDithering data w h P = some out2) :
    groupIn out1 k P = true ∧ groupIn out2 k P = true := by
  obtain ⟨p0, ps, rfl⟩ := List.exists_cons_of_ne_nil hP
  constructor
  · obtain ⟨out, hout, _, hgroups⟩ :=
      quantizeToEinkPalette_spec data w h p0 ps hWF hlen
    rw [hout] at h1
    simp only [Option.some.injEq] at h1
    rw [← h1]
    exact hgroups k hk
  · obtain ⟨t, ht, _, hgroups⟩ := ditherRun_spec data w h p0 ps hWF hlen
    unfold applyFloydSteinbergDithering at h2
    rw [ht] at h2
    simp only [Option.map_some', Option.some.injEq] at h2
    rw [← h2]
    exact hgroups k hk

/-- Witness for C1 at a concrete input: a 1x1 buffer maps to black under
both strategies. -/
theorem C1_outputs_in_palette_witness :
    groupIn [0, 0, 0] 0 [(⟨0, 0, 0⟩ : RGB), ⟨255, 255, 255⟩] = true ∧
    groupIn [0, 0, 0] 0 [(⟨0, 0, 0⟩ : RGB), ⟨255, 255, 255⟩] = true :=
  C1_outputs_in_palette [10, 10, 10] 1 1 [⟨0, 0, 0⟩, ⟨255, 255, 255⟩]
    (by decide) (by decide) (by decide) 0 (by decide) [0, 0, 0] (by decide)
    [0, 0, 0] (by decide)

end InkyFrame

namespace InkyFrame

lemma ditherPixel_tail (w h x y : Nat) (P : List RGB) (s t : JSHeap)
    (hx : x < w) (hy : y < h) (ht : ditherPixel w h P x y s = some t)
    (j : Nat) (hj : w * h * 3 ≤ j) : t.data[j]? = s.data[j]? := by
  have hpx : y * w + x < w * h := pixel_lt w h x y hx hy
  simp only [ditherPixel] at ht
  rcases hU : findClosestColorU s.data[(y * w + x) * 3]? s.data[(y * w + x) * 3 + 1]?
      s.data[(y * w + x) * 3 + 2]? P with _ | np
  · rw [hU] at ht; exact absurd ht (by simp)
  · rw [hU] at ht
    simp only [Option.some.injEq] at ht
    rw [← ht]
    rw [distributeError_getElem?_past w h x y _ _ _ 1 1 _ _ j hj,
      distributeError_getElem?_past w h x y _ _ _ 0 1 _ _ j hj,
      distributeError_getElem?_past w h x y _ _ _ (-1) 1 _ _ j hj,
      distributeError_getElem?_past w h x y _ _ _ 1 0 _ _ j hj]
    rw [show (writeData (writeData (writeData s ((y * w + x) * 3) (clampByte np.r))
      ((y * w + x) * 3 + 1) (clampByte np.g)) ((y * w + x) * 3 + 2)
      (clampByte np.b)).data = ((s.data.set ((y * w + x) * 3) (clampByte np.r)).set
      ((y * w + x) * 3 + 1) (clampByte np.g)).set ((y * w + x) * 3 + 2)
      (clampByte np.b) from rfl]
    rw [List.getElem?_set_ne (by omega), List.getElem?_set_ne (by omega),
      List.getElem?_set_ne (by omega)]

/-- C9: on a buffer longer than `width*height*3`, the ditherer processes
only the `width*height`-pixel prefix; the result has the input's length and
every trailing byte (index at least `width*height*3`) is copied through
unchanged. -/
theorem C9_trailing_bytes_copied (data : List Nat) (w h : Nat) (P : List RGB)
    (hP : P ≠ []) (hlen : w * h * 3 < data.length) (j : Nat) (hj : w * h * 3 ≤ j)
    (out : List Nat) (hout : applyFloydSteinbergDithering data w h P = some out) :
    out.length = data.length ∧ out[j]? = data[j]? := by
  obtain ⟨p0, ps, rfl⟩ := List.exists_cons_of_ne_nil hP
  have hrow : ∀ y, y < h → ∀ s : JSHeap,
      (s.data.length = data.length ∧ ∀ i, w * h * 3 ≤ i → s.data[i]? = data[i]?) →
      ∃ t, (List.range' 0 w).foldlM
        (fun s x => ditherPixel w h (p0 :: ps) x y s) s = some t ∧
        (t.data.length = data.length ∧ ∀ i, w * h * 3 ≤ i → t.data[i]? = data[i]?) := by
    intro y hy s hs
    obtain ⟨t, ht, hinv⟩ := foldlM_inv_bounded
      (fun s x => ditherPixel w h (p0 :: ps) x y s)
      (fun s _ => s.data.length = data.length ∧
        ∀ i, w * h * 3 ≤ i → s.data[i]? = data[i]?)
      0 w
      (fun s a ha0 haw hInv => by
        obtain ⟨t, ht⟩ := ditherPixel_isSome w h p0 ps a y s
        refine ⟨t, ht, ?_, ?_⟩
        · rw [ditherPixel_data_length w h (p0 :: ps) a y s t ht]
          exact hInv.1
        · intro i hi
          rw [ditherPixel_tail w h a y (p0 :: ps) s t (by omega) hy ht i hi]
          exact hInv.2 i hi)
      s hs
    exact ⟨t, ht, hinv⟩
  obtain ⟨t, ht, hinv⟩ := foldlM_inv_bounded
    (fun s y => (List.range' 0 w).foldlM
      (fun s x => ditherPixel w h (p0 :: ps) x y s) s)
    (fun s _ => s.data.length = data.length ∧
      ∀ i, w * h * 3 ≤ i → s.data[i]? = data[i]?)
    0 h
    (fun s a ha0 hah hInv => by
      obtain ⟨t, h1, h2⟩ := hrow a (by omega) s hInv
      exact ⟨t, h1, h2⟩)
    ⟨data, data⟩ ⟨rfl, fun i _ => rfl⟩
  unfold applyFloydSteinbergDithering ditherRun at hout
  rw [List.range_eq_range' w, List.range_eq_range' h, ht] at hout
  simp only [Option.map_some', Option.some.injEq] at hout
  rw [← hout]
  exact ⟨hinv.1, hinv.2 j hj⟩

/-- Witness for C9 at a concrete input: a 6-byte buffer with stated 1x1
dimensions keeps its trailing three bytes. -/
theorem C9_trailing_bytes_copied_witness :
    ([0, 0, 0, 9, 9, 9] : List Nat).length = ([10, 10, 10, 9, 9, 9] : List Nat).length ∧
    ([0, 0, 0, 9, 9, 9] : List Nat)[3]? = ([10, 10, 10, 9, 9, 9] : List Nat)[3]? :=
  C9_trailing_bytes_copied [10, 10, 10, 9, 9, 9] 1 1 [⟨0, 0, 0⟩] (by decide)
    (by decide) 3 (by decide) [0, 0, 0, 9, 9, 9] (by decide)

end InkyFrame

namespace InkyFrame

lemma getElem?_lt_length (l : List Nat) (i v : Nat) (h : l[i]? = some v) :
    i < l.length := by
  by_contra hc
  rw [List.getElem?_eq_none (by omega)] at h
  exact absurd h (by simp)

lemma distChannel_getElem?_self_map (s : JSHeap) (n : Nat) (e : ℤ) (f : ℚ)
    (hn : n < s.data.length) :
    (distChannel s n (some e) f).data[n]? =
      (s.data[n]?).map (fun v : Nat => clampRound ((v : ℚ) + (e : ℚ) * f)) := by
  obtain ⟨v, hv⟩ := getElem?_exists s.data n hn
  unfold distChannel
  rw [hv]
  simp only [writeData, Option.map_some']
  exact List.getElem?_set_self hn

lemma distributeError_inbounds (w h x y : Nat) (eR eG eB : Option ℤ)
    (dx dy : ℤ) (f : ℚ) (s : JSHeap) (N : Nat)
    (hcond : 0 ≤ (x : ℤ) + dx ∧ (x : ℤ) + dx < (w : ℤ) ∧
      0 ≤ (y : ℤ) + dy ∧ (y : ℤ) + dy < (h : ℤ))
    (hN : ((((y : ℤ) + dy) * (w : ℤ) + ((x : ℤ) + dx)) * 3).toNat = N) :
    distributeError w h x y eR eG eB dx dy f s =
      distChannel (distChannel (distChannel s N eR f) (N + 1) eG f) (N + 2) eB f := by
  unfold distributeError
  rw [if_pos hcond]
  simp only
  rw [hN]

/-- C4: an error contribution whose target lies outside the raster is
skipped entirely: `distributeError` returns the state unchanged, with no
wraparound and no redistribution.  In particular, for a pixel on the
rightmost column (`x + 1 = width`) the `(+1,0)` (weight 7/16) and
`(+1,+1)` (weight 1/16) contributions are dropped, so the weight actually
propagated from such a pixel, 3/16 + 5/16, is strictly less than 1. -/
theorem C4_oob_contributions_skipped (w h x y : Nat) (eR eG eB : Option ℤ)
    (dx dy : ℤ) (f : ℚ) (s : JSHeap) (hx : x + 1 = w)
    (hoob : ¬ (0 ≤ (x : ℤ) + dx ∧ (x : ℤ) + dx < (w : ℤ) ∧
      0 ≤ (y : ℤ) + dy ∧ (y : ℤ) + dy < (h : ℤ))) :
    distributeError w h x y eR eG eB dx dy f s = s ∧
    distributeError w h x y eR eG eB 1 0 (7 / 16) s = s ∧
    distributeError w h x y eR eG eB 1 1 (1 / 16) s = s ∧
    (3 : ℚ) / 16 + 5 / 16 < 1 := by
  have hxw : (x : ℤ) + 1 = (w : ℤ) := by exact_mod_cast hx
  refine ⟨?_, ?_, ?_, by norm_num⟩
  · unfold distributeError
    rw [if_neg hoob]
  · unfold distributeError
    rw [if_neg (by omega)]
  · unfold distributeError
    rw [if_neg (by omega)]

/-- Witness for C4 at a concrete input. -/
theorem C4_oob_contributions_skipped_witness :
    distributeError 1 1 0 0 (some 5) (some 5) (some 5) (-1) 0 (1 / 2)
      ⟨[1, 2, 3], [1, 2, 3]⟩ = ⟨[1, 2, 3], [1, 2, 3]⟩ ∧
    distributeError 1 1 0 0 (some 5) (some 5) (some 5) 1 0 (7 / 16)
      ⟨[1, 2, 3], [1, 2, 3]⟩ = ⟨[1, 2, 3], [1, 2, 3]⟩ ∧
    distributeError 1 1 0 0 (some 5) (some 5) (some 5) 1 1 (1 / 16)
      ⟨[1, 2, 3], [1, 2, 3]⟩ = ⟨[1, 2, 3], [1, 2, 3]⟩ ∧
    (3 : ℚ) / 16 + 5 / 16 < 1 :=
  C4_oob_contributions_skipped 1 1 0 0 (some 5) (some 5) (some 5) (-1) 0 (1 / 2)
    ⟨[1, 2, 3], [1, 2, 3]⟩ (by decide) (by decide)

end InkyFrame

namespace InkyFrame

/-- C3: for an interior pixel (all four diffusion targets inside the
raster), the processed pixel receives its nearest palette color, and the
signed per-channel quantization error `old - new` is distributed to
exactly the four neighbors at offsets (+1,0), (-1,+1), (0,+1), (+1,+1)
with weights 7/16, 3/16, 5/16, 1/16 (which sum to exactly 1): each
affected channel becomes `clampRound(current + error*weight)` — the clamp
and round of the ECMAScript clamped store applied immediately at that
individual distribution — and every pixel other than the processed pixel
and its four neighbors is unchanged. -/
theorem C3_interior_error_distribution (w h x y : Nat) (P : List RGB)
    (s : JSHeap) (hx1 : 1 ≤ x) (hx2 : x + 1 < w) (hy2 : y + 1 < h)
    (hlen : s.data.length = w * h * 3) (oR oG oB : Nat)
    (hoR : s.data[(y * w + x) * 3]? = some oR)
    (hoG : s.data[(y * w + x) * 3 + 1]? = some oG)
    (hoB : s.data[(y * w + x) * 3 + 2]? = some oB)
    (np : RGB) (hnp : findClosestColor ⟨(oR : ℤ), (oG : ℤ), (oB : ℤ)⟩ P = some np)
    (t : JSHeap) (ht : ditherPixel w h P x y s = some t)
    (k : Nat) (hk1 : k ≠ y * w + x) (hk2 : k ≠ y * w + x + 1)
    (hk3 : k ≠ (y + 1) * w + (x - 1)) (hk4 : k ≠ (y + 1) * w + x)
    (hk5 : k ≠ (y + 1) * w + (x + 1)) :
    ((7 : ℚ) / 16 + 3 / 16 + 5 / 16 + 1 / 16 = 1) ∧
    (t.data[(y * w + x) * 3]? = some (clampByte np.r) ∧
      t.data[(y * w + x) * 3 + 1]? = some (clampByte np.g) ∧
      t.data[(y * w + x) * 3 + 2]? = some (clampByte np.b)) ∧
    (t.data[(y * w + x + 1) * 3]? = (s.data[(y * w + x + 1) * 3]?).map
        (fun v : Nat => clampRound ((v : ℚ) + (((oR : ℤ) - np.r : ℤ) : ℚ) * (7 / 16))) ∧
      t.data[(y * w + x + 1) * 3 + 1]? = (s.data[(y * w + x + 1) * 3 + 1]?).map
        (fun v : Nat => clampRound ((v : ℚ) + (((oG : ℤ) - np.g : ℤ) : ℚ) * (7 / 16))) ∧
      t.data[(y * w + x + 1) * 3 + 2]? = (s.data[(y * w + x + 1) * 3 + 2]?).map
        (fun v : Nat => clampRound ((v : ℚ) + (((oB : ℤ) - np.b : ℤ) : ℚ) * (7 / 16)))) ∧
    (t.data[((y + 1) * w + (x - 1)) * 3]? = (s.data[((y + 1) * w + (x - 1)) * 3]?).map
        (fun v : Nat => clampRound ((v : ℚ) + (((oR : ℤ) - np.r : ℤ) : ℚ) * (3 / 16))) ∧
      t.data[((y + 1) * w + (x - 1)) * 3 + 1]? = (s.data[((y + 1) * w + (x - 1)) * 3 + 1]?).map
        (fun v : Nat => clampRound ((v : ℚ) + (((oG : ℤ) - np.g : ℤ) : ℚ) * (3 / 16))) ∧
      t.data[((y + 1) * w + (x - 1)) * 3 + 2]? = (s.data[((y + 1) * w + (x - 1)) * 3 + 2]?).map
        (fun v : Nat => clampRound ((v : ℚ) + (((oB : ℤ) - np.b : ℤ) : ℚ) * (3 / 16)))) ∧
    (t.data[((y + 1) * w + x) * 3]? = (s.data[((y + 1) * w + x) * 3]?).map
        (fun v : Nat => clampRound ((v : ℚ) + (((oR : ℤ) - np.r : ℤ) : ℚ) * (5 / 16))) ∧
      t.data[((y + 1) * w + x) * 3 + 1]? = (s.data[((y + 1) * w + x) * 3 + 1]?).map
        (fun v : Nat => clampRound ((v : ℚ) + (((oG : ℤ) - np.g : ℤ) : ℚ) * (5 / 16))) ∧
      t.data[((y + 1) * w + x) * 3 + 2]? = (s.data[((y + 1) * w + x) * 3 + 2]?).map
        (fun v : Nat => clampRound ((v : ℚ) + (((oB : ℤ) - np.b : ℤ) : ℚ) * (5 / 16)))) ∧
    (t.data[((y + 1) * w + (x + 1)) * 3]? = (s.data[((y + 1) * w + (x + 1)) * 3]?).map
        (fun v : Nat => clampRound ((v : ℚ) + (((oR : ℤ) - np.r : ℤ) : ℚ) * (1 / 16))) ∧
      t.data[((y + 1) * w + (x + 1)) * 3 + 1]? = (s.data[((y + 1) * w + (x + 1)) * 3 + 1]?).map
        (fun v : Nat => clampRound ((v : ℚ) + (((oG : ℤ) - np.g : ℤ) : ℚ) * (1 / 16))) ∧
      t.data[((y + 1) * w + (x + 1)) * 3 + 2]? = (s.data[((y + 1) * w + (x + 1)) * 3 + 2]?).map
        (fun v : Nat => clampRound ((v : ℚ) + (((oB : ℤ) - np.b : ℤ) : ℚ) * (1 / 16)))) ∧
    (t.data[3 * k]? = s.data[3 * k]? ∧ t.data[3 * k + 1]? = s.data[3 * k + 1]? ∧
      t.data[3 * k + 2]? = s.data[3 * k + 2]?) := by
  have hw1 : (y + 1) * w = y * w + w := by rw [Nat.add_mul, Nat.one_mul]
  rw [hw1] at hk3 hk4 hk5 ⊢
  have hub : y * w + w + w ≤ w * h := by
    have h1 : (y + 2) * w ≤ h * w := Nat.mul_le_mul_right w (by omega)
    rw [Nat.add_mul] at h1
    rw [Nat.mul_comm w h]
    omega
  have hxz : ((x - 1 : Nat) : ℤ) = (x : ℤ) - 1 := by
    rw [Nat.cast_sub hx1]
    norm_num
  have hU2 : findClosestColorU (some oR) (some oG) (some oB) P = some np := by
    rw [← hnp]
    rfl
  have hcomp : ditherPixel w h P x y s =
      some (distributeError w h x y (some ((oR : ℤ) - np.r)) (some ((oG : ℤ) - np.g))
        (some ((oB : ℤ) - np.b)) 1 1 (1 / 16)
        (distributeError w h x y (some ((oR : ℤ) - np.r)) (some ((oG : ℤ) - np.g))
          (some ((oB : ℤ) - np.b)) 0 1 (5 / 16)
          (distributeError w h x y (some ((oR : ℤ) - np.r)) (some ((oG : ℤ) - np.g))
            (some ((oB : ℤ) - np.b)) (-1) 1 (3 / 16)
            (distributeError w h x y (some ((oR : ℤ) - np.r)) (some ((oG : ℤ) - np.g))
              (some ((oB : ℤ) - np.b)) 1 0 (7 / 16)
              (writeData (writeData (writeData s ((y * w + x) * 3) (clampByte np.r))
                ((y * w + x) * 3 + 1) (clampByte np.g))
                ((y * w + x) * 3 + 2) (clampByte np.b)))))) := by
    simp only [ditherPixel, hoR, hoG, hoB, hU2, Option.map_some']
  rw [hcomp] at ht
  simp only [Option.some.injEq] at ht
  subst ht
  have hs1d : (writeData (writeData (writeData s ((y * w + x) * 3) (clampByte np.r))
      ((y * w + x) * 3 + 1) (clampByte np.g))
      ((y * w + x) * 3 + 2) (clampByte np.b)).data =
      ((s.data.set ((y * w + x) * 3) (clampByte np.r)).set ((y * w + x) * 3 + 1)
        (clampByte np.g)).set ((y * w + x) * 3 + 2) (clampByte np.b) := rfl
  rw [distributeError_inbounds w h x y _ _ _ 1 0 _ _ ((y * w + x + 1) * 3)
      ⟨by omega, by omega, by omega, by omega⟩
      (by rw [show (((y : ℤ) + 0) * (w : ℤ) + ((x : ℤ) + 1)) * 3 =
          (((y * w + x + 1) * 3 : Nat) : ℤ) from by push_cast; ring, Int.toNat_natCast]),
    distributeError_inbounds w h x y _ _ _ (-1) 1 _ _ ((y * w + w + (x - 1)) * 3)
      ⟨by omega, by omega, by omega, by omega⟩
      (by rw [show (((y : ℤ) + 1) * (w : ℤ) + ((x : ℤ) + (-1))) * 3 =
          (((y * w + w + (x - 1)) * 3 : Nat) : ℤ) from by push_cast [hxz]; ring,
        Int.toNat_natCast]),
    distributeError_inbounds w h x y _ _ _ 0 1 _ _ ((y * w + w + x) * 3)
      ⟨by omega, by omega, by omega, by omega⟩
      (by rw [show (((y : ℤ) + 1) * (w : ℤ) + ((x : ℤ) + 0)) * 3 =
          (((y * w + w + x) * 3 : Nat) : ℤ) from by push_cast; ring, Int.toNat_natCast]),
    distributeError_inbounds w h x y _ _ _ 1 1 _ _ ((y * w + w + (x + 1)) * 3)
      ⟨by omega, by omega, by omega, by omega⟩
      (by rw [show (((y : ℤ) + 1) * (w : ℤ) + ((x : ℤ) + 1)) * 3 =
          (((y * w + w + (x + 1)) * 3 : Nat) : ℤ) from by push_cast; ring,
        Int.toNat_natCast])]
  refine ⟨by norm_num, ⟨?_, ?_, ?_⟩, ⟨?_, ?_, ?_⟩, ⟨?_, ?_, ?_⟩, ⟨?_, ?_, ?_⟩,
    ⟨?_, ?_, ?_⟩, ⟨?_, ?_, ?_⟩⟩
  · repeat rw [distChannel_getElem?_ne _ _ _ _ _ (by omega)]
    rw [hs1d, List.getElem?_set_ne (by omega), List.getElem?_set_ne (by omega),
      List.getElem?_set_self (by simp only [List.length_set, hlen]; omega)]
  · repeat rw [distChannel_getElem?_ne _ _ _ _ _ (by omega)]
    rw [hs1d, List.getElem?_set_ne (by omega),
      List.getElem?_set_self (by simp only [List.length_set, hlen]; omega)]
  · repeat rw [distChannel_getElem?_ne _ _ _ _ _ (by omega)]
    rw [hs1d, List.getElem?_set_self (by simp only [List.length_set, hlen]; omega)]
  · repeat rw [distChannel_getElem?_ne _ _ _ _ _ (by omega)]
    rw [distChannel_getElem?_self_map _ _ _ _
      (by simp only [distChannel_data_length, writeData, List.length_set]; omega)]
    repeat rw [distChannel_getElem?_ne _ _ _ _ _ (by omega)]
    rw [hs1d, List.getElem?_set_ne (by omega), List.getElem?_set_ne (by omega),
      List.getElem?_set_ne (by omega)]
  · repeat rw [distChannel_getElem?_ne _ _ _ _ _ (by omega)]
    rw [distChannel_getElem?_self_map _ _ _ _
      (by simp only [distChannel_data_length, writeData, List.length_set]; omega)]
    repeat rw [distChannel_getElem?_ne _ _ _ _ _ (by omega)]
    rw [hs1d, List.getElem?_set_ne (by omega), List.getElem?_set_ne (by omega),
      List.getElem?_set_ne (by omega)]
  · repeat rw [distChannel_getElem?_ne _ _ _ _ _ (by omega)]
    rw [distChannel_getElem?_self_map _ _ _ _
      (by simp only [distChannel_data_length, writeData, List.length_set]; omega)]
    repeat rw [distChannel_getElem?_ne _ _ _ _ _ (by omega)]
    rw [hs1d, List.getElem?_set_ne (by omega), List.getElem?_set_ne (by omega),
      List.getElem?_set_ne (by omega)]
  · repeat rw [distChannel_getElem?_ne _ _ _ _ _ (by omega)]
    rw [distChannel_getElem?_self_map _ _ _ _
      (by simp only [distChannel_data_length, writeData, List.length_set]; omega)]
    repeat rw [distChannel_getElem?_ne _ _ _ _ _ (by omega)]
    rw [hs1d, List.getElem?_set_ne (by omega), List.getElem?_set_ne (by omega),
      List.getElem?_set_ne (by omega)]
  · repeat rw [distChannel_getElem?_ne _ _ _ _ _ (by omega)]
    rw [distChannel_getElem?_self_map _ _ _ _
      (by simp only [distChannel_data_length, writeData, List.length_set]; omega)]
    repeat rw [distChannel_getElem?_ne _ _ _ _ _ (by omega)]
    rw [hs1d, List.getElem?_set_ne (by omega), List.getElem?_set_ne (by omega),
      List.getElem?_set_ne (by omega)]
  · repeat rw [distChannel_getElem?_ne _ _ _ _ _ (by omega)]
    rw [distChannel_getElem?_self_map _ _ _ _
      (by simp only [distChannel_data_length, writeData, List.length_set]; omega)]
    repeat rw [distChannel_getElem?_ne _ _ _ _ _ (by omega)]
    rw [hs1d, List.getElem?_set_ne (by omega), List.getElem?_set_ne (by omega),
      List.getElem?_set_ne (by omega)]
  · repeat rw [distChannel_getElem?_ne _ _ _ _ _ (by omega)]
    rw [distChannel_getElem?_self_map _ _ _ _
      (by simp only [distChannel_data_length, writeData, List.length_set]; omega)]
    repeat rw [distChannel_getElem?_ne _ _ _ _ _ (by omega)]
    rw [hs1d, List.getElem?_set_ne (by omega), List.getElem?_set_ne (by omega),
      List.getElem?_set_ne (by omega)]
  · repeat rw [distChannel_getElem?_ne _ _ _ _ _ (by omega)]
    rw [distChannel_getElem?_self_map _ _ _ _
      (by simp only [distChannel_data_length, writeData, List.length_set]; omega)]
    repeat rw [distChannel_getElem?_ne _ _ _ _ _ (by omega)]
    rw [hs1d, List.getElem?_set_ne (by omega), List.getElem?_set_ne (by omega),
      List.getElem?_set_ne (by omega)]
  · repeat rw [distChannel_getElem?_ne _ _ _ _ _ (by omega)]
    rw [distChannel_getElem?_self_map _ _ _ _
      (by simp only [distChannel_data_length, writeData, List.length_set]; omega)]
    repeat rw [distChannel_getElem?_ne _ _ _ _ _ (by omega)]
    rw [hs1d, List.getElem?_set_ne (by omega), List.getElem?_set_ne (by omega),
      List.getElem?_set_ne (by omega)]
  · repeat rw [distChannel_getElem?_ne _ _ _ _ _ (by omega)]
    rw [distChannel_getElem?_self_map _ _ _ _
      (by simp only [distChannel_data_length, writeData, List.length_set]; omega)]
    repeat rw [distChannel_getElem?_ne _ _ _ _ _ (by omega)]
    rw [hs1d, List.getElem?_set_ne (by omega), List.getElem?_set_ne (by omega),
      List.getElem?_set_ne (by omega)]
  · repeat rw [distChannel_getElem?_ne _ _ _ _ _ (by omega)]
    rw [distChannel_getElem?_self_map _ _ _ _
      (by simp only [distChannel_data_length, writeData, List.length_set]; omega)]
    repeat rw [distChannel_getElem?_ne _ _ _ _ _ (by omega)]
    rw [hs1d, List.getElem?_set_ne (by omega), List.getElem?_set_ne (by omega),
      List.getElem?_set_ne (by omega)]
  · repeat rw [distChannel_getElem?_ne _ _ _ _ _ (by omega)]
    rw [distChannel_getElem?_self_map _ _ _ _
      (by simp only [distChannel_data_length, writeData, List.length_set]; omega)]
    repeat rw [distChannel_getElem?_ne _ _ _ _ _ (by omega)]
    rw [hs1d, List.getElem?_set_ne (by omega), List.getElem?_set_ne (by omega),
      List.getElem?_set_ne (by omega)]
  · repeat rw [distChannel_getElem?_ne _ _ _ _ _ (by omega)]
    rw [hs1d, List.getElem?_set_ne (by omega), List.getElem?_set_ne (by omega),
      List.getElem?_set_ne (by omega)]
  · repeat rw [distChannel_getElem?_ne _ _ _ _ _ (by omega)]
    rw [hs1d, List.getElem?_set_ne (by omega), List.getElem?_set_ne (by omega),
      List.getElem?_set_ne (by omega)]
  · repeat rw [distChannel_getElem?_ne _ _ _ _ _ (by omega)]
    rw [hs1d, List.getElem?_set_ne (by omega), List.getElem?_set_ne (by omega),
      List.getElem?_set_ne (by omega)]

end InkyFrame


namespace InkyFrame

lemma rat_floor_eq (q : ℚ) (n : ℤ) (h1 : (n : ℚ) ≤ q) (h2 : q < n + 1) :
    q.floor = n := by
  have ha : n ≤ q.floor := Rat.le_floor.2 h1
  have hb : ¬ (n + 1 ≤ q.floor) := by
    intro hc
    have := Rat.le_floor.1 hc
    push_cast at this
    linarith
  omega

lemma clampRound_eq_of_lt_half (q : ℚ) (n : ℤ) (h0 : 0 ≤ q) (h255 : q ≤ 255)
    (hfl : (n : ℚ) ≤ q) (hfrac : q - n < 1 / 2) :
    clampRound q = n.toNat := by
  unfold clampRound roundHalfEven
  have hq : max 0 (min 255 q) = q := by
    rw [min_eq_right h255, max_eq_right h0]
  rw [hq]
  have hfloor : q.floor = n := rat_floor_eq q n hfl (by linarith)
  rw [hfloor, if_pos (by push_cast; linarith)]

lemma clampRound_eq_of_gt_half (q : ℚ) (n : ℤ) (h0 : 0 ≤ q) (h255 : q ≤ 255)
    (hfl : (n : ℚ) ≤ q) (hfu : q < n + 1) (hfrac : 1 / 2 < q - n) :
    clampRound q = (n + 1).toNat := by
  unfold clampRound roundHalfEven
  have hq : max 0 (min 255 q) = q := by
    rw [min_eq_right h255, max_eq_right h0]
  rw [hq]
  have hfloor : q.floor = n := rat_floor_eq q n hfl hfu
  rw [hfloor, if_neg (by push_cast; linarith), if_pos (by push_cast; linarith)]

end InkyFrame

namespace InkyFrame

/-- Witness for C3 at a concrete interior pixel: an 18-byte 3x2 raster of
mid-gray (100) with the black/white palette; pixel (1,0) becomes black and
its four neighbors become 144, 119, 131, 106 on every channel. -/
theorem C3_interior_error_distribution_witness :
    ((7 : ℚ) / 16 + 3 / 16 + 5 / 16 + 1 / 16 = 1) ∧
    ((⟨List.replicate 18 100, [100, 100, 100, 0, 0, 0, 144, 144, 144, 119, 119, 119, 131, 131, 131, 106, 106, 106]⟩ : JSHeap).data[(0 * 3 + 1) * 3]? = some (clampByte (⟨0, 0, 0⟩ : RGB).r) ∧
      (⟨List.replicate 18 100, [100, 100, 100, 0, 0, 0, 144, 144, 144, 119, 119, 119, 131, 131, 131, 106, 106, 106]⟩ : JSHeap).data[(0 * 3 + 1) * 3 + 1]? = some (clampByte (⟨0, 0, 0⟩ : RGB).g) ∧
      (⟨List.replicate 18 100, [100, 100, 100, 0, 0, 0, 144, 144, 144, 119, 119, 119, 131, 131, 131, 106, 106, 106]⟩ : JSHeap).data[(0 * 3 + 1) * 3 + 2]? = some (clampByte (⟨0, 0, 0⟩ : RGB).b)) ∧
    ((⟨List.replicate 18 100, [100, 100, 100, 0, 0, 0, 144, 144, 144, 119, 119, 119, 131, 131, 131, 106, 106, 106]⟩ : JSHeap).data[(0 * 3 + 1 + 1) * 3]? = ((⟨List.replicate 18 100, List.replicate 18 100⟩ : JSHeap).data[(0 * 3 + 1 + 1) * 3]?).map
        (fun v : Nat => clampRound ((v : ℚ) + ((((100 : ℕ) : ℤ) - (⟨0, 0, 0⟩ : RGB).r : ℤ) : ℚ) * (7 / 16))) ∧
      (⟨List.replicate 18 100, [100, 100, 100, 0, 0, 0, 144, 144, 144, 119, 119, 119, 131, 131, 131, 106, 106, 106]⟩ : JSHeap).data[(0 * 3 + 1 + 1) * 3 + 1]? = ((⟨List.replicate 18 100, List.replicate 18 100⟩ : JSHeap).data[(0 * 3 + 1 + 1) * 3 + 1]?).map
        (fun v : Nat => clampRound ((v : ℚ) + ((((100 : ℕ) : ℤ) - (⟨0, 0, 0⟩ : RGB).g : ℤ) : ℚ) * (7 / 16))) ∧
      (⟨List.replicate 18 100, [100, 100, 100, 0, 0, 0, 144, 144, 144, 119, 119, 119, 131, 131, 131, 106, 106, 106]⟩ : JSHeap).data[(0 * 3 + 1 + 1) * 3 + 2]? = ((⟨List.replicate 18 100, List.replicate 18 100⟩ : JSHeap).data[(0 * 3 + 1 + 1) * 3 + 2]?).map
        (fun v : Nat => clampRound ((v : ℚ) + ((((100 : ℕ) : ℤ) - (⟨0, 0, 0⟩ : RGB).b : ℤ) : ℚ) * (7 / 16)))) ∧
    ((⟨List.replicate 18 100, [100, 100, 100, 0, 0, 0, 144, 144, 144, 119, 119, 119, 131, 131, 131, 106, 106, 106]⟩ : JSHeap).data[((0 + 1) * 3 + (1 - 1)) * 3]? = ((⟨List.replicate 18 100, List.replicate 18 100⟩ : JSHeap).data[((0 + 1) * 3 + (1 - 1)) * 3]?).map
        (fun v : Nat => clampRound ((v : ℚ) + ((((100 : ℕ) : ℤ) - (⟨0, 0, 0⟩ : RGB).r : ℤ) : ℚ) * (3 / 16))) ∧
      (⟨List.replicate 18 100, [100, 100, 100, 0, 0, 0, 144, 144, 144, 119, 119, 119, 131, 131, 131, 106, 106, 106]⟩ : JSHeap).data[((0 + 1) * 3 + (1 - 1)) * 3 + 1]? = ((⟨List.replicate 18 100, List.replicate 18 100⟩ : JSHeap).data[((0 + 1) * 3 + (1 - 1)) * 3 + 1]?).map
        (fun v : Nat => clampRound ((v : ℚ) + ((((100 : ℕ) : ℤ) - (⟨0, 0, 0⟩ : RGB).g : ℤ) : ℚ) * (3 / 16))) ∧
      (⟨List.replicate 18 100, [100, 100, 100, 0, 0, 0, 144, 144, 144, 119, 119, 119, 131, 131, 131, 106, 106, 106]⟩ : JSHeap).data[((0 + 1) * 3 + (1 - 1)) * 3 + 2]? = ((⟨List.replicate 18 100, List.replicate 18 100⟩ : JSHeap).data[((0 + 1) * 3 + (1 - 1)) * 3 + 2]?).map
        (fun v : Nat => clampRound ((v : ℚ) + ((((100 : ℕ) : ℤ) - (⟨0, 0, 0⟩ : RGB).b : ℤ) : ℚ) * (3 / 16)))) ∧
    ((⟨List.replicate 18 100, [100, 100, 100, 0, 0, 0, 144, 144, 144, 119, 119, 119, 131, 131, 131, 106, 106, 106]⟩ : JSHeap).data[((0 + 1) * 3 + 1) * 3]? = ((⟨List.replicate 18 100, List.replicate 18 100⟩ : JSHeap).data[((0 + 1) * 3 + 1) * 3]?).map
        (fun v : Nat => clampRound ((v : ℚ) + ((((100 : ℕ) : ℤ) - (⟨0, 0, 0⟩ : RGB).r : ℤ) : ℚ) * (5 / 16))) ∧
      (⟨List.replicate 18 100, [100, 100, 100, 0, 0, 0, 144, 144, 144, 119, 119, 119, 131, 131, 131, 106, 106, 106]⟩ : JSHeap).data[((0 + 1) * 3 + 1) * 3 + 1]? = ((⟨List.replicate 18 100, List.replicate 18 100⟩ : JSHeap).data[((0 + 1) * 3 + 1) * 3 + 1]?).map
        (fun v : Nat => clampRound ((v : ℚ) + ((((100 : ℕ) : ℤ) - (⟨0, 0, 0⟩ : RGB).g : ℤ) : ℚ) * (5 / 16))) ∧
      (⟨List.replicate 18 100, [100, 100, 100, 0, 0, 0, 144, 144, 144, 119, 119, 119, 131, 131, 131, 106, 106, 106]⟩ : JSHeap).data[((0 + 1) * 3 + 1) * 3 + 2]? = ((⟨List.replicate 18 100, List.replicate 18 100⟩ : JSHeap).data[((0 + 1) * 3 + 1) * 3 + 2]?).map
        (fun v : Nat => clampRound ((v : ℚ) + ((((100 : ℕ) : ℤ) - (⟨0, 0, 0⟩ : RGB).b : ℤ) : ℚ) * (5 / 16)))) ∧
    ((⟨List.replicate 18 100, [100, 100, 100, 0, 0, 0, 144, 144, 144, 119, 119, 119, 131, 131, 131, 106, 106, 106]⟩ : JSHeap).data[((0 + 1) * 3 + (1 + 1)) * 3]? = ((⟨List.replicate 18 100, List.replicate 18 100⟩ : JSHeap).data[((0 + 1) * 3 + (1 + 1)) * 3]?).map
        (fun v : Nat => clampRound ((v : ℚ) + ((((100 : ℕ) : ℤ) - (⟨0, 0, 0⟩ : RGB).r : ℤ) : ℚ) * (1 / 16))) ∧
      (⟨List.replicate 18 100, [100, 100, 100, 0, 0, 0, 144, 144, 144, 119, 119, 119, 131, 131, 131, 106, 106, 106]⟩ : JSHeap).data[((0 + 1) * 3 + (1 + 1)) * 3 + 1]? = ((⟨List.replicate 18 100, List.replicate 18 100⟩ : JSHeap).data[((0 + 1) * 3 + (1 + 1)) * 3 + 1]?).map
        (fun v : Nat => clampRound ((v : ℚ) + ((((100 : ℕ) : ℤ) - (⟨0, 0, 0⟩ : RGB).g : ℤ) : ℚ) * (1 / 16))) ∧
      (⟨List.replicate 18 100, [100, 100, 100, 0, 0, 0, 144, 144, 144, 119, 119, 119, 131, 131, 131, 106, 106, 106]⟩ : JSHeap).data[((0 + 1) * 3 + (1 + 1)) * 3 + 2]? = ((⟨List.replicate 18 100, List.replicate 18 100⟩ : JSHeap).data[((0 + 1) * 3 + (1 + 1)) * 3 + 2]?).map
        (fun v : Nat => clampRound ((v : ℚ) + ((((100 : ℕ) : ℤ) - (⟨0, 0, 0⟩ : RGB).b : ℤ) : ℚ) * (1 / 16)))) ∧
    ((⟨List.replicate 18 100, [100, 100, 100, 0, 0, 0, 144, 144, 144, 119, 119, 119, 131, 131, 131, 106, 106, 106]⟩ : JSHeap).data[3 * 0]? = (⟨List.replicate 18 100, List.replicate 18 100⟩ : JSHeap).data[3 * 0]? ∧
      (⟨List.replicate 18 100, [100, 100, 100, 0, 0, 0, 144, 144, 144, 119, 119, 119, 131, 131, 131, 106, 106, 106]⟩ : JSHeap).data[3 * 0 + 1]? = (⟨List.replicate 18 100, List.replicate 18 100⟩ : JSHeap).data[3 * 0 + 1]? ∧
      (⟨List.replicate 18 100, [100, 100, 100, 0, 0, 0, 144, 144, 144, 119, 119, 119, 131, 131, 131, 106, 106, 106]⟩ : JSHeap).data[3 * 0 + 2]? = (⟨List.replicate 18 100, List.replicate 18 100⟩ : JSHeap).data[3 * 0 + 2]?) := by
  have e7 : clampRound (((100 : ℕ) : ℚ) + ((100 : ℤ) : ℚ) * (7 / 16)) = 144 := by
    have := clampRound_eq_of_gt_half (((100 : ℕ) : ℚ) + ((100 : ℤ) : ℚ) * (7 / 16)) 143
      (by push_cast; norm_num) (by push_cast; norm_num) (by push_cast; norm_num)
      (by push_cast; norm_num) (by push_cast; norm_num)
    simpa using this
  have e3 : clampRound (((100 : ℕ) : ℚ) + ((100 : ℤ) : ℚ) * (3 / 16)) = 119 := by
    have := clampRound_eq_of_gt_half (((100 : ℕ) : ℚ) + ((100 : ℤ) : ℚ) * (3 / 16)) 118
      (by push_cast; norm_num) (by push_cast; norm_num) (by push_cast; norm_num)
      (by push_cast; norm_num) (by push_cast; norm_num)
    simpa using this
  have e5 : clampRound (((100 : ℕ) : ℚ) + ((100 : ℤ) : ℚ) * (5 / 16)) = 131 := by
    have := clampRound_eq_of_lt_half (((100 : ℕ) : ℚ) + ((100 : ℤ) : ℚ) * (5 / 16)) 131
      (by push_cast; norm_num) (by push_cast; norm_num) (by push_cast; norm_num)
      (by push_cast; norm_num)
    simpa using this
  have e1 : clampRound (((100 : ℕ) : ℚ) + ((100 : ℤ) : ℚ) * (1 / 16)) = 106 := by
    have := clampRound_eq_of_lt_half (((100 : ℕ) : ℚ) + ((100 : ℤ) : ℚ) * (1 / 16)) 106
      (by push_cast; norm_num) (by push_cast; norm_num) (by push_cast; norm_num)
      (by push_cast; norm_num)
    simpa using this
  have ht : ditherPixel 3 2 [⟨0, 0, 0⟩, ⟨255, 255, 255⟩] 1 0
      ⟨List.replicate 18 100, List.replicate 18 100⟩ = some ⟨List.replicate 18 100, [100, 100, 100, 0, 0, 0, 144, 144, 144, 119, 119, 119, 131, 131, 131, 106, 106, 106]⟩ := by
    rw [show ditherPixel 3 2 [⟨0, 0, 0⟩, ⟨255, 255, 255⟩] 1 0
        ⟨List.replicate 18 100, List.replicate 18 100⟩ = some ⟨List.replicate 18 100,
        [100, 100, 100, 0, 0, 0,
        clampRound (((100 : ℕ) : ℚ) + ((100 : ℤ) : ℚ) * (7 / 16)),
        clampRound (((100 : ℕ) : ℚ) + ((100 : ℤ) : ℚ) * (7 / 16)),
        clampRound (((100 : ℕ) : ℚ) + ((100 : ℤ) : ℚ) * (7 / 16)),
        clampRound (((100 : ℕ) : ℚ) + ((100 : ℤ) : ℚ) * (3 / 16)),
        clampRound (((100 : ℕ) : ℚ) + ((100 : ℤ) : ℚ) * (3 / 16)),
        clampRound (((100 : ℕ) : ℚ) + ((100 : ℤ) : ℚ) * (3 / 16)),
        clampRound (((100 : ℕ) : ℚ) + ((100 : ℤ) : ℚ) * (5 / 16)),
        clampRound (((100 : ℕ) : ℚ) + ((100 : ℤ) : ℚ) * (5 / 16)),
        clampRound (((100 : ℕ) : ℚ) + ((100 : ℤ) : ℚ) * (5 / 16)),
        clampRound (((100 : ℕ) : ℚ) + ((100 : ℤ) : ℚ) * (1 / 16)),
        clampRound (((100 : ℕ) : ℚ) + ((100 : ℤ) : ℚ) * (1 / 16)),
        clampRound (((100 : ℕ) : ℚ) + ((100 : ℤ) : ℚ) * (1 / 16))]⟩ from rfl]
    rw [e7, e3, e5, e1]
  exact C3_interior_error_distribution 3 2 1 0 [⟨0, 0, 0⟩, ⟨255, 255, 255⟩]
    ⟨List.replicate 18 100, List.replicate 18 100⟩ (by decide) (by decide) (by decide) (by decide)
    100 100 100 (by decide) (by decide) (by decide) ⟨0, 0, 0⟩ (by decide)
    ⟨List.replicate 18 100, [100, 100, 100, 0, 0, 0, 144, 144, 144, 119, 119, 119, 131, 131, 131, 106, 106, 106]⟩ ht
    0 (by decide) (by decide) (by decide) (by decide) (by decide)

end InkyFrame
